import Mathlib

/-!
Verification of the lane-widening SIMD code emitter of
`src/codegen/shared-ia32-x64/macro-assembler-shared-ia32-x64.cc`.

A 128-bit vector register is modelled as sixteen byte fields (`V128`);
well-formed values (`V128.Wf`) keep every byte below 256.  Each machine
instruction used by the emitter is given its bit-level semantics as a pure
function on `V128`.  The emitter operations themselves are shallow-embedded
as state transformers over a register file `State : Reg → V128`, following
the C++ line by line: the AVX/non-AVX feature query becomes an explicit
`avx : Bool` parameter, and `std::swap` of operand handles becomes a
re-binding of the handle used for the rest of the sequence.
-/

/-- A 128-bit vector register value, as sixteen bytes (little-endian). -/
structure V128 where
  b0 : Nat
  b1 : Nat
  b2 : Nat
  b3 : Nat
  b4 : Nat
  b5 : Nat
  b6 : Nat
  b7 : Nat
  b8 : Nat
  b9 : Nat
  b10 : Nat
  b11 : Nat
  b12 : Nat
  b13 : Nat
  b14 : Nat
  b15 : Nat
deriving DecidableEq

/-- Well-formedness: every byte fits in 8 bits. -/
def V128.Wf (v : V128) : Prop :=
  v.b0 < 256 ∧ v.b1 < 256 ∧ v.b2 < 256 ∧ v.b3 < 256 ∧
  v.b4 < 256 ∧ v.b5 < 256 ∧ v.b6 < 256 ∧ v.b7 < 256 ∧
  v.b8 < 256 ∧ v.b9 < 256 ∧ v.b10 < 256 ∧ v.b11 < 256 ∧
  v.b12 < 256 ∧ v.b13 < 256 ∧ v.b14 < 256 ∧ v.b15 < 256

instance (v : V128) : Decidable v.Wf := by
  unfold V128.Wf
  infer_instance

/-- The all-zero vector. -/
def zeroV : V128 := ⟨0, 0, 0, 0, 0, 0, 0, 0, 0, 0, 0, 0, 0, 0, 0, 0⟩

/-! 16-bit word accessors (little-endian byte pairs). -/

def V128.w0 (v : V128) : Nat := v.b0 + 256 * v.b1
def V128.w1 (v : V128) : Nat := v.b2 + 256 * v.b3
def V128.w2 (v : V128) : Nat := v.b4 + 256 * v.b5
def V128.w3 (v : V128) : Nat := v.b6 + 256 * v.b7
def V128.w4 (v : V128) : Nat := v.b8 + 256 * v.b9
def V128.w5 (v : V128) : Nat := v.b10 + 256 * v.b11
def V128.w6 (v : V128) : Nat := v.b12 + 256 * v.b13
def V128.w7 (v : V128) : Nat := v.b14 + 256 * v.b15

/-! 32-bit doubleword accessors. -/

def V128.d0 (v : V128) : Nat :=
  v.b0 + 256 * v.b1 + 65536 * v.b2 + 16777216 * v.b3
def V128.d1 (v : V128) : Nat :=
  v.b4 + 256 * v.b5 + 65536 * v.b6 + 16777216 * v.b7
def V128.d2 (v : V128) : Nat :=
  v.b8 + 256 * v.b9 + 65536 * v.b10 + 16777216 * v.b11
def V128.d3 (v : V128) : Nat :=
  v.b12 + 256 * v.b13 + 65536 * v.b14 + 16777216 * v.b15

/-- Build a vector from eight 16-bit words (each truncated to 16 bits). -/
def V128.ofWords (w0 w1 w2 w3 w4 w5 w6 w7 : Nat) : V128 :=
  ⟨w0 % 256, w0 / 256 % 256, w1 % 256, w1 / 256 % 256,
   w2 % 256, w2 / 256 % 256, w3 % 256, w3 / 256 % 256,
   w4 % 256, w4 / 256 % 256, w5 % 256, w5 / 256 % 256,
   w6 % 256, w6 / 256 % 256, w7 % 256, w7 / 256 % 256⟩

/-- Build a vector from four 32-bit doublewords (each truncated to 32 bits). -/
def V128.ofDwords (d0 d1 d2 d3 : Nat) : V128 :=
  ⟨d0 % 256, d0 / 256 % 256, d0 / 65536 % 256, d0 / 16777216 % 256,
   d1 % 256, d1 / 256 % 256, d1 / 65536 % 256, d1 / 16777216 % 256,
   d2 % 256, d2 / 256 % 256, d2 / 65536 % 256, d2 / 16777216 % 256,
   d3 % 256, d3 / 256 % 256, d3 / 65536 % 256, d3 / 16777216 % 256⟩

/-- Build a vector from two 64-bit quadwords (each truncated to 64 bits). -/
def V128.ofQwords (q0 q1 : Nat) : V128 :=
  ⟨q0 % 256, q0 / 256 % 256, q0 / 65536 % 256, q0 / 16777216 % 256,
   q0 / 4294967296 % 256, q0 / 1099511627776 % 256,
   q0 / 281474976710656 % 256, q0 / 72057594037927936 % 256,
   q1 % 256, q1 / 256 % 256, q1 / 65536 % 256, q1 / 16777216 % 256,
   q1 / 4294967296 % 256, q1 / 1099511627776 % 256,
   q1 / 281474976710656 % 256, q1 / 72057594037927936 % 256⟩

/-! Scalar arithmetic helpers: sign interpretation and sign extension. -/

/-- Signed value of the low byte of `x`. -/
def sint8 (x : Nat) : Int :=
  if x % 256 < 128 then (x % 256 : Int) else (x % 256 : Int) - 256

/-- Signed value of the low 16-bit word of `x`. -/
def sint16 (x : Nat) : Int :=
  if x % 65536 < 32768 then (x % 65536 : Int) else (x % 65536 : Int) - 65536

/-- Signed value of the low 32-bit doubleword of `x`. -/
def sint32 (x : Nat) : Int :=
  if x % 4294967296 < 2147483648 then (x % 4294967296 : Int)
  else (x % 4294967296 : Int) - 4294967296

/-- Sign-extend a byte to a 16-bit word (bit pattern). -/
def sxbw (b : Nat) : Nat := if b % 256 < 128 then b % 256 else b % 256 + 65280

/-- Sign-extend a 16-bit word to a 32-bit doubleword (bit pattern). -/
def sxwd (w : Nat) : Nat :=
  if w % 65536 < 32768 then w % 65536 else w % 65536 + 4294901760

/-- Sign-extend a 32-bit doubleword to a 64-bit quadword (bit pattern). -/
def sxdq (d : Nat) : Nat :=
  if d % 4294967296 < 2147483648 then d % 4294967296
  else d % 4294967296 + 18446744069414584320

/-- 16-bit arithmetic shift right by `n` of a 16-bit word. -/
def asr16 (w n : Nat) : Nat :=
  if w % 65536 < 32768 then (w % 65536) / 2 ^ n
  else (w % 65536 + 65536 * (2 ^ n - 1)) / 2 ^ n

/-- 32-bit arithmetic shift right by `n` of a 32-bit doubleword. -/
def asr32 (d n : Nat) : Nat :=
  if d % 4294967296 < 2147483648 then (d % 4294967296) / 2 ^ n
  else (d % 4294967296 + 4294967296 * (2 ^ n - 1)) / 2 ^ n

/-- High 16 bits of the signed 16×16 product (the `pmulhw` lane function). -/
def mulhwS (x y : Nat) : Nat :=
  Int.toNat ((sint16 x * sint16 y / 65536) % 65536)

/-- High 16 bits of the unsigned 16×16 product (the `pmulhuw` lane function). -/
def mulhwU (x y : Nat) : Nat :=
  x % 65536 * (y % 65536) / 65536

/-- Signed 32×32→64 product bit pattern (the `pmuldq` lane function). -/
def muldqS (x y : Nat) : Nat :=
  Int.toNat ((sint32 x * sint32 y) % 18446744073709551616)

/-- Unsigned 32×32→64 product (the `pmuludq` lane function). -/
def muldqU (x y : Nat) : Nat :=
  x % 4294967296 * (y % 4294967296) % 18446744073709551616

/-! Instruction semantics.  Each definition gives the value written to the
destination operand of one machine instruction in terms of its operand
values; two-operand (legacy SSE) and three-operand (AVX) encodings of the
same mnemonic share one value function. -/

/-- Interleave the high 8 bytes of `a` and `b`. -/
def punpckhbw (a b : V128) : V128 :=
  ⟨a.b8, b.b8, a.b9, b.b9, a.b10, b.b10, a.b11, b.b11,
   a.b12, b.b12, a.b13, b.b13, a.b14, b.b14, a.b15, b.b15⟩

/-- Interleave the low 4 words of `a` and `b`. -/
def punpcklwd (a b : V128) : V128 :=
  ⟨a.b0, a.b1, b.b0, b.b1, a.b2, a.b3, b.b2, b.b3,
   a.b4, a.b5, b.b4, b.b5, a.b6, a.b7, b.b6, b.b7⟩

/-- Interleave the high 4 words of `a` and `b`. -/
def punpckhwd (a b : V128) : V128 :=
  ⟨a.b8, a.b9, b.b8, b.b9, a.b10, a.b11, b.b10, b.b11,
   a.b12, a.b13, b.b12, b.b13, a.b14, a.b15, b.b14, b.b15⟩

/-- Interleave the low 2 doublewords of `a` and `b`. -/
def punpckldq (a b : V128) : V128 :=
  ⟨a.b0, a.b1, a.b2, a.b3, b.b0, b.b1, b.b2, b.b3,
   a.b4, a.b5, a.b6, a.b7, b.b4, b.b5, b.b6, b.b7⟩

/-- Interleave the high 2 doublewords of `a` and `b`. -/
def punpckhdq (a b : V128) : V128 :=
  ⟨a.b8, a.b9, a.b10, a.b11, b.b8, b.b9, b.b10, b.b11,
   a.b12, a.b13, a.b14, a.b15, b.b12, b.b13, b.b14, b.b15⟩

/-- Interleave the high quadwords of `a` and `b`. -/
def punpckhqdq (a b : V128) : V128 :=
  ⟨a.b8, a.b9, a.b10, a.b11, a.b12, a.b13, a.b14, a.b15,
   b.b8, b.b9, b.b10, b.b11, b.b12, b.b13, b.b14, b.b15⟩

/-- `movhlps d s`: high quadword of `s` into the low quadword of `d`. -/
def movhlps (d s : V128) : V128 :=
  ⟨s.b8, s.b9, s.b10, s.b11, s.b12, s.b13, s.b14, s.b15,
   d.b8, d.b9, d.b10, d.b11, d.b12, d.b13, d.b14, d.b15⟩

/-- Doubleword selector used by `pshufd`. -/
def V128.dsel (v : V128) (j : Nat) : Nat :=
  if j = 0 then v.d0 else if j = 1 then v.d1 else if j = 2 then v.d2 else v.d3

/-- `pshufd` with an 8-bit immediate: each result doubleword selects a source
doubleword by a 2-bit field of the immediate. -/
def pshufd (v : V128) (imm : Nat) : V128 :=
  V128.ofDwords (v.dsel (imm % 4)) (v.dsel (imm / 4 % 4))
    (v.dsel (imm / 16 % 4)) (v.dsel (imm / 64 % 4))

/-- Bitwise exclusive or. -/
def pxor (a b : V128) : V128 :=
  ⟨a.b0 ^^^ b.b0, a.b1 ^^^ b.b1, a.b2 ^^^ b.b2, a.b3 ^^^ b.b3,
   a.b4 ^^^ b.b4, a.b5 ^^^ b.b5, a.b6 ^^^ b.b6, a.b7 ^^^ b.b7,
   a.b8 ^^^ b.b8, a.b9 ^^^ b.b9, a.b10 ^^^ b.b10, a.b11 ^^^ b.b11,
   a.b12 ^^^ b.b12, a.b13 ^^^ b.b13, a.b14 ^^^ b.b14, a.b15 ^^^ b.b15⟩

/-- `xorps` is bit-identical to `pxor` on register operands. -/
def xorps (a b : V128) : V128 := pxor a b

/-- Arithmetic shift right of each 16-bit word. -/
def psraw (v : V128) (n : Nat) : V128 :=
  V128.ofWords (asr16 v.w0 n) (asr16 v.w1 n) (asr16 v.w2 n) (asr16 v.w3 n)
    (asr16 v.w4 n) (asr16 v.w5 n) (asr16 v.w6 n) (asr16 v.w7 n)

/-- Logical shift right of each 16-bit word. -/
def psrlw (v : V128) (n : Nat) : V128 :=
  V128.ofWords (v.w0 % 65536 / 2 ^ n) (v.w1 % 65536 / 2 ^ n)
    (v.w2 % 65536 / 2 ^ n) (v.w3 % 65536 / 2 ^ n)
    (v.w4 % 65536 / 2 ^ n) (v.w5 % 65536 / 2 ^ n)
    (v.w6 % 65536 / 2 ^ n) (v.w7 % 65536 / 2 ^ n)

/-- Arithmetic shift right of each 32-bit doubleword. -/
def psrad (v : V128) (n : Nat) : V128 :=
  V128.ofDwords (asr32 v.d0 n) (asr32 v.d1 n) (asr32 v.d2 n) (asr32 v.d3 n)

/-- Low 16 bits of each 16×16 word product. -/
def pmullw (a b : V128) : V128 :=
  V128.ofWords (a.w0 * b.w0 % 65536) (a.w1 * b.w1 % 65536)
    (a.w2 * b.w2 % 65536) (a.w3 * b.w3 % 65536)
    (a.w4 * b.w4 % 65536) (a.w5 * b.w5 % 65536)
    (a.w6 * b.w6 % 65536) (a.w7 * b.w7 % 65536)

/-- High 16 bits of each signed 16×16 word product. -/
def pmulhw (a b : V128) : V128 :=
  V128.ofWords (mulhwS a.w0 b.w0) (mulhwS a.w1 b.w1) (mulhwS a.w2 b.w2)
    (mulhwS a.w3 b.w3) (mulhwS a.w4 b.w4) (mulhwS a.w5 b.w5)
    (mulhwS a.w6 b.w6) (mulhwS a.w7 b.w7)

/-- High 16 bits of each unsigned 16×16 word product. -/
def pmulhuw (a b : V128) : V128 :=
  V128.ofWords (mulhwU a.w0 b.w0) (mulhwU a.w1 b.w1) (mulhwU a.w2 b.w2)
    (mulhwU a.w3 b.w3) (mulhwU a.w4 b.w4) (mulhwU a.w5 b.w5)
    (mulhwU a.w6 b.w6) (mulhwU a.w7 b.w7)

/-- Signed 32×32→64 multiply of the even doublewords (lanes 0 and 2). -/
def pmuldq (a b : V128) : V128 :=
  V128.ofQwords (muldqS a.d0 b.d0) (muldqS a.d2 b.d2)

/-- Unsigned 32×32→64 multiply of the even doublewords (lanes 0 and 2). -/
def pmuludq (a b : V128) : V128 :=
  V128.ofQwords (muldqU a.d0 b.d0) (muldqU a.d2 b.d2)

/-- Sign-extend the low 8 bytes to 8 words. -/
def pmovsxbw (v : V128) : V128 :=
  V128.ofWords (sxbw v.b0) (sxbw v.b1) (sxbw v.b2) (sxbw v.b3)
    (sxbw v.b4) (sxbw v.b5) (sxbw v.b6) (sxbw v.b7)

/-- Zero-extend the low 8 bytes to 8 words. -/
def pmovzxbw (v : V128) : V128 :=
  V128.ofWords (v.b0 % 256) (v.b1 % 256) (v.b2 % 256) (v.b3 % 256)
    (v.b4 % 256) (v.b5 % 256) (v.b6 % 256) (v.b7 % 256)

/-- Sign-extend the low 4 words to 4 doublewords. -/
def pmovsxwd (v : V128) : V128 :=
  V128.ofDwords (sxwd v.w0) (sxwd v.w1) (sxwd v.w2) (sxwd v.w3)

/-- Zero-extend the low 4 words to 4 doublewords. -/
def pmovzxwd (v : V128) : V128 :=
  V128.ofDwords (v.w0 % 65536) (v.w1 % 65536) (v.w2 % 65536) (v.w3 % 65536)

/-- Sign-extend the low 2 doublewords to 2 quadwords. -/
def pmovsxdq (v : V128) : V128 :=
  V128.ofQwords (sxdq v.d0) (sxdq v.d1)

/-! The register file.  A register handle is a symbolic identifier; two equal
handles denote the same physical register (aliasing). -/

abbrev Reg := Nat

abbrev State := Reg → V128

/-- Write register `r`. -/
def wr (s : State) (r : Reg) (v : V128) : State :=
  fun q => if q = r then v else s q

/-! The emitter operations, embedded line by line from
`macro-assembler-shared-ia32-x64.cc`.  `avx` is the result of the
`CpuFeatures::IsSupported(AVX)` feature query. -/

/-- `SharedTurboAssembler::I16x8ExtMulHighS` (lines 21–42). -/
def I16x8ExtMulHighS (avx : Bool) (dst src1 src2 scratch : Reg)
    (s0 : State) : State :=
  if avx then
    let s1 := wr s0 scratch (punpckhbw (s0 src1) (s0 src1))
    let s2 := wr s1 scratch (psraw (s1 scratch) 8)
    let s3 := wr s2 dst (punpckhbw (s2 src2) (s2 src2))
    let s4 := wr s3 dst (psraw (s3 dst) 8)
    wr s4 dst (pmullw (s4 dst) (s4 scratch))
  else
    let s1 := if dst ≠ src1 then wr s0 dst (s0 src1) else s0
    let s2 := wr s1 scratch (s1 src2)
    let s3 := wr s2 dst (punpckhbw (s2 dst) (s2 dst))
    let s4 := wr s3 dst (psraw (s3 dst) 8)
    let s5 := wr s4 scratch (punpckhbw (s4 scratch) (s4 scratch))
    let s6 := wr s5 scratch (psraw (s5 scratch) 8)
    wr s6 dst (pmullw (s6 dst) (s6 scratch))

/-- `SharedTurboAssembler::I16x8ExtMulHighU` (lines 44–91).  `std::swap` of
the `src1`/`src2` handles is embedded as a re-binding of the handle used for
the remainder of the sequence. -/
def I16x8ExtMulHighU (avx : Bool) (dst src1 src2 scratch : Reg)
    (s0 : State) : State :=
  if avx then
    if src1 = src2 then
      let s1 := wr s0 scratch (pxor (s0 scratch) (s0 scratch))
      let s2 := wr s1 dst (punpckhbw (s1 src1) (s1 scratch))
      wr s2 dst (pmullw (s2 dst) (s2 dst))
    else
      let sa := if dst = src2 then src2 else src1
      let sb := if dst = src2 then src1 else src2
      let s1 := wr s0 scratch (pxor (s0 scratch) (s0 scratch))
      let s2 := wr s1 dst (punpckhbw (s1 sa) (s1 scratch))
      let s3 := wr s2 scratch (punpckhbw (s2 sb) (s2 scratch))
      wr s3 dst (pmullw (s3 dst) (s3 scratch))
  else
    if src1 = src2 then
      let s1 := wr s0 scratch (xorps (s0 scratch) (s0 scratch))
      let s2 := if dst ≠ src1 then wr s1 dst (s1 src1) else s1
      let s3 := wr s2 dst (punpckhbw (s2 dst) (s2 scratch))
      wr s3 dst (pmullw (s3 dst) (s3 scratch))
    else
      let sb := if dst = src2 then src1 else src2
      let s1 :=
        if dst = src2 then s0
        else if dst ≠ src1 then wr s0 dst (s0 src1) else s0
      let s2 := wr s1 scratch (xorps (s1 scratch) (s1 scratch))
      let s3 := wr s2 dst (punpckhbw (s2 dst) (s2 scratch))
      let s4 := wr s3 scratch (punpckhbw (s3 scratch) (s3 sb))
      let s5 := wr s4 scratch (psrlw (s4 scratch) 8)
      wr s5 dst (pmullw (s5 dst) (s5 scratch))

/-- `SharedTurboAssembler::I16x8SConvertI8x16High` (lines 93–113). -/
def I16x8SConvertI8x16High (avx : Bool) (dst src : Reg) (s0 : State) : State :=
  if avx then
    let s1 := wr s0 dst (punpckhbw (s0 src) (s0 src))
    wr s1 dst (psraw (s1 dst) 8)
  else
    if dst = src then
      let s1 := wr s0 dst (movhlps (s0 dst) (s0 src))
      wr s1 dst (pmovsxbw (s1 dst))
    else
      let s1 := wr s0 dst (pshufd (s0 src) 0xEE)
      wr s1 dst (pmovsxbw (s1 dst))

/-- `SharedTurboAssembler::I16x8UConvertI8x16High` (lines 115–138). -/
def I16x8UConvertI8x16High (avx : Bool) (dst src scratch : Reg)
    (s0 : State) : State :=
  if avx then
    let tmp := if dst = src then scratch else dst
    let s1 := wr s0 tmp (pxor (s0 tmp) (s0 tmp))
    wr s1 dst (punpckhbw (s1 src) (s1 tmp))
  else
    if dst = src then
      let s1 := wr s0 scratch (xorps (s0 scratch) (s0 scratch))
      wr s1 dst (punpckhbw (s1 dst) (s1 scratch))
    else
      let s1 := wr s0 dst (pshufd (s0 src) 0xEE)
      wr s1 dst (pmovzxbw (s1 dst))

/-- `SharedTurboAssembler::I32x4ExtMul` (lines 140–158).  The
`DCHECK_EQ(dst, src1)` of the non-AVX branch is a debug-build assertion
(modelled by `I32x4ExtMulAssertOk`); release builds execute the branch
regardless, which is what this function models. -/
def I32x4ExtMul (avx : Bool) (dst src1 src2 scratch : Reg)
    (low is_signed : Bool) (s0 : State) : State :=
  if avx then
    let s1 := wr s0 scratch (pmullw (s0 src1) (s0 src2))
    let s2 := wr s1 dst
      (if is_signed then pmulhw (s1 src1) (s1 src2)
       else pmulhuw (s1 src1) (s1 src2))
    wr s2 dst
      (if low then punpcklwd (s2 scratch) (s2 dst)
       else punpckhwd (s2 scratch) (s2 dst))
  else
    let s1 := wr s0 scratch (s0 src1)
    let s2 := wr s1 dst (pmullw (s1 dst) (s1 src2))
    let s3 := wr s2 scratch
      (if is_signed then pmulhw (s2 scratch) (s2 src2)
       else pmulhuw (s2 scratch) (s2 src2))
    wr s3 dst
      (if low then punpcklwd (s3 dst) (s3 scratch)
       else punpckhwd (s3 dst) (s3 scratch))

/-- The development-time assertion guarding `I32x4ExtMul`: the non-AVX branch
executes `DCHECK_EQ(dst, src1)` (line 152); the AVX branch asserts nothing. -/
def I32x4ExtMulAssertOk (avx : Bool) (dst src1 : Reg) : Bool :=
  if avx then true else dst == src1

/-- `SharedTurboAssembler::I32x4SConvertI16x8High` (lines 160–180). -/
def I32x4SConvertI16x8High (avx : Bool) (dst src : Reg) (s0 : State) : State :=
  if avx then
    let s1 := wr s0 dst (punpckhwd (s0 src) (s0 src))
    wr s1 dst (psrad (s1 dst) 16)
  else
    if dst = src then
      let s1 := wr s0 dst (movhlps (s0 dst) (s0 src))
      wr s1 dst (pmovsxwd (s1 dst))
    else
      let s1 := wr s0 dst (pshufd (s0 src) 0xEE)
      wr s1 dst (pmovsxwd (s1 dst))

/-- `SharedTurboAssembler::I32x4UConvertI16x8High` (lines 182–205). -/
def I32x4UConvertI16x8High (avx : Bool) (dst src scratch : Reg)
    (s0 : State) : State :=
  if avx then
    let tmp := if dst = src then scratch else dst
    let s1 := wr s0 tmp (pxor (s0 tmp) (s0 tmp))
    wr s1 dst (punpckhwd (s1 src) (s1 tmp))
  else
    if dst = src then
      let s1 := wr s0 scratch (xorps (s0 scratch) (s0 scratch))
      wr s1 dst (punpckhwd (s1 dst) (s1 scratch))
    else
      let s1 := wr s0 dst (pshufd (s0 src) 0xEE)
      wr s1 dst (pmovzxwd (s1 dst))

/-- `SharedTurboAssembler::I64x2ExtMul` (lines 211–239). -/
def I64x2ExtMul (avx : Bool) (dst src1 src2 scratch : Reg)
    (low is_signed : Bool) (s0 : State) : State :=
  if avx then
    let s2 :=
      if low then
        let s1 := wr s0 scratch (punpckldq (s0 src1) (s0 src1))
        wr s1 dst (punpckldq (s1 src2) (s1 src2))
      else
        let s1 := wr s0 scratch (punpckhdq (s0 src1) (s0 src1))
        wr s1 dst (punpckhdq (s1 src2) (s1 src2))
    wr s2 dst
      (if is_signed then pmuldq (s2 scratch) (s2 dst)
       else pmuludq (s2 scratch) (s2 dst))
  else
    let mask := if low then 0x50 else 0xFA
    let s1 := wr s0 scratch (pshufd (s0 src1) mask)
    let s2 := wr s1 dst (pshufd (s1 src2) mask)
    wr s2 dst
      (if is_signed then pmuldq (s2 dst) (s2 scratch)
       else pmuludq (s2 dst) (s2 scratch))

/-- `SharedTurboAssembler::I64x2SConvertI32x4High` (lines 241–256). -/
def I64x2SConvertI32x4High (avx : Bool) (dst src : Reg) (s0 : State) : State :=
  if avx then
    let s1 := wr s0 dst (punpckhqdq (s0 src) (s0 src))
    wr s1 dst (pmovsxdq (s1 dst))
  else
    let s1 :=
      if dst = src then wr s0 dst (movhlps (s0 dst) (s0 src))
      else wr s0 dst (pshufd (s0 src) 0xEE)
    wr s1 dst (pmovsxdq (s1 dst))

/-- `SharedTurboAssembler::I64x2UConvertI32x4High` (lines 258–272). -/
def I64x2UConvertI32x4High (avx : Bool) (dst src scratch : Reg)
    (s0 : State) : State :=
  if avx then
    let s1 := wr s0 scratch (pxor (s0 scratch) (s0 scratch))
    wr s1 dst (punpckhdq (s1 src) (s1 scratch))
  else
    let s1 := if dst ≠ src then wr s0 dst (s0 src) else s0
    let s2 := wr s1 scratch (xorps (s1 scratch) (s1 scratch))
    wr s2 dst (punpckhdq (s2 dst) (s2 scratch))

/-! Scalar reference semantics: each lane is widened and multiplied (or
extended) independently, with no register reuse. -/

/-- Signed byte×byte product, truncated to a 16-bit lane. -/
def smul8 (x y : Nat) : Nat := Int.toNat ((sint8 x * sint8 y) % 65536)

/-- Unsigned byte×byte product, truncated to a 16-bit lane. -/
def umul8 (x y : Nat) : Nat := x % 256 * (y % 256) % 65536

/-- Signed word×word product, truncated to a 32-bit lane. -/
def smul16 (x y : Nat) : Nat := Int.toNat ((sint16 x * sint16 y) % 4294967296)

/-- Unsigned word×word product, truncated to a 32-bit lane. -/
def umul16 (x y : Nat) : Nat := x % 65536 * (y % 65536) % 4294967296

/-- Scalar reference for `I16x8ExtMulHighS`: lane-wise signed widening
multiply of the high byte lanes. -/
def extMulHighSRef (a b : V128) : V128 :=
  V128.ofWords (smul8 a.b8 b.b8) (smul8 a.b9 b.b9) (smul8 a.b10 b.b10)
    (smul8 a.b11 b.b11) (smul8 a.b12 b.b12) (smul8 a.b13 b.b13)
    (smul8 a.b14 b.b14) (smul8 a.b15 b.b15)

/-- Scalar reference for `I16x8ExtMulHighU`: lane-wise unsigned widening
multiply of the high byte lanes. -/
def extMulHighURef (a b : V128) : V128 :=
  V128.ofWords (umul8 a.b8 b.b8) (umul8 a.b9 b.b9) (umul8 a.b10 b.b10)
    (umul8 a.b11 b.b11) (umul8 a.b12 b.b12) (umul8 a.b13 b.b13)
    (umul8 a.b14 b.b14) (umul8 a.b15 b.b15)

/-- Scalar reference for `I32x4ExtMul`: lane-wise widening multiply of the
low (or high) word lanes. -/
def extMulI32Ref (a b : V128) (low is_signed : Bool) : V128 :=
  if low then
    if is_signed then
      V128.ofDwords (smul16 a.w0 b.w0) (smul16 a.w1 b.w1) (smul16 a.w2 b.w2)
        (smul16 a.w3 b.w3)
    else
      V128.ofDwords (umul16 a.w0 b.w0) (umul16 a.w1 b.w1) (umul16 a.w2 b.w2)
        (umul16 a.w3 b.w3)
  else
    if is_signed then
      V128.ofDwords (smul16 a.w4 b.w4) (smul16 a.w5 b.w5) (smul16 a.w6 b.w6)
        (smul16 a.w7 b.w7)
    else
      V128.ofDwords (umul16 a.w4 b.w4) (umul16 a.w5 b.w5) (umul16 a.w6 b.w6)
        (umul16 a.w7 b.w7)

/-- Scalar reference for `I64x2ExtMul`: lane-wise widening multiply of the
low (or high) doubleword lanes. -/
def extMulI64Ref (a b : V128) (low is_signed : Bool) : V128 :=
  if low then
    if is_signed then V128.ofQwords (muldqS a.d0 b.d0) (muldqS a.d1 b.d1)
    else V128.ofQwords (muldqU a.d0 b.d0) (muldqU a.d1 b.d1)
  else
    if is_signed then V128.ofQwords (muldqS a.d2 b.d2) (muldqS a.d3 b.d3)
    else V128.ofQwords (muldqU a.d2 b.d2) (muldqU a.d3 b.d3)

/-- Scalar reference for `I16x8SConvertI8x16High`. -/
def sconv8Ref (a : V128) : V128 :=
  V128.ofWords (sxbw a.b8) (sxbw a.b9) (sxbw a.b10) (sxbw a.b11)
    (sxbw a.b12) (sxbw a.b13) (sxbw a.b14) (sxbw a.b15)

/-- Scalar reference for `I16x8UConvertI8x16High`. -/
def uconv8Ref (a : V128) : V128 :=
  V128.ofWords (a.b8 % 256) (a.b9 % 256) (a.b10 % 256) (a.b11 % 256)
    (a.b12 % 256) (a.b13 % 256) (a.b14 % 256) (a.b15 % 256)

/-- Scalar reference for `I32x4SConvertI16x8High`. -/
def sconv16Ref (a : V128) : V128 :=
  V128.ofDwords (sxwd a.w4) (sxwd a.w5) (sxwd a.w6) (sxwd a.w7)

/-- Scalar reference for `I32x4UConvertI16x8High`. -/
def uconv16Ref (a : V128) : V128 :=
  V128.ofDwords (a.w4 % 65536) (a.w5 % 65536) (a.w6 % 65536) (a.w7 % 65536)

/-- Scalar reference for `I64x2SConvertI32x4High`. -/
def sconv32Ref (a : V128) : V128 :=
  V128.ofQwords (sxdq a.d2) (sxdq a.d3)

/-- Scalar reference for `I64x2UConvertI32x4High`. -/
def uconv32Ref (a : V128) : V128 :=
  V128.ofQwords (a.d2 % 4294967296) (a.d3 % 4294967296)

/-! Specification-side step structure, used for the refinement claims. -/

/-- The step structure the specification ascribes to `I32x4ExtMul`:
multiply the low words into scratch, multiply the high words into the
destination, then interleave scratch and destination into the destination. -/
def I32x4ExtMulSteps (dst src1 src2 scratch : Reg) (low is_signed : Bool)
    (s0 : State) : State :=
  let s1 := wr s0 scratch (pmullw (s0 src1) (s0 src2))
  let s2 := wr s1 dst
    (if is_signed then pmulhw (s1 src1) (s1 src2)
     else pmulhuw (s1 src1) (s1 src2))
  wr s2 dst
    (if low then punpcklwd (s2 scratch) (s2 dst)
     else punpckhwd (s2 scratch) (s2 dst))

/-- Duplicate the low (`low = true`) or high (`low = false`) pair of 32-bit
sub-lanes of a source, each into both halves of its 64-bit lane — the two
fixed shuffle patterns of `I64x2ExtMul`, which depend only on the `low`
flag. -/
def dupLanes (v : V128) (low : Bool) : V128 :=
  if low then V128.ofDwords v.d0 v.d0 v.d1 v.d1
  else V128.ofDwords v.d2 v.d2 v.d3 v.d3

/-- The step structure the specification ascribes to `I64x2ExtMul`:
duplicate the selected sub-lanes of source-1 into scratch and of source-2
into the destination, then widening-multiply scratch against the
destination. -/
def I64x2ExtMulSteps (dst src1 src2 scratch : Reg) (low is_signed : Bool)
    (s0 : State) : State :=
  let s1 := wr s0 scratch (dupLanes (s0 src1) low)
  let s2 := wr s1 dst (dupLanes (s1 src2) low)
  wr s2 dst
    (if is_signed then pmuldq (s2 scratch) (s2 dst)
     else pmuludq (s2 scratch) (s2 dst))

/-! Concrete sample data for witnesses and counterexamples. -/

/-- The byte vector `[1..16]`. -/
def vSeq : V128 := ⟨1, 2, 3, 4, 5, 6, 7, 8, 9, 10, 11, 12, 13, 14, 15, 16⟩

/-- The byte vector `[17..32]`. -/
def vSeq2 : V128 := ⟨17, 18, 19, 20, 21, 22, 23, 24, 25, 26, 27, 28, 29, 30, 31, 32⟩

/-- A vector whose word lanes all hold 256. -/
def vW256 : V128 := ⟨0, 1, 0, 1, 0, 1, 0, 1, 0, 1, 0, 1, 0, 1, 0, 1⟩

/-- Sample register file: register 1 holds `vSeq`, register 2 holds `vSeq2`,
all others zero. -/
def stAB : State := fun r => if r = 1 then vSeq else if r = 2 then vSeq2 else zeroV


/-- Sample register file: register 0 holds `vSeq`, all others zero. -/
def stA0 : State := fun r => if r = 0 then vSeq else zeroV

/-- Sample register file: register 0 holds `vW256`, all others zero. -/
def stW : State := fun r => if r = 0 then vW256 else zeroV

/-- Sample register file: registers 1 and 2 hold the same value `vSeq`. -/
def stDup : State := fun r => if r = 1 then vSeq else if r = 2 then vSeq else zeroV

/-! Register-file lemmas. -/

theorem wr_same (s : State) (r : Reg) (v : V128) : wr s r v r = v := by
  simp [wr]

theorem wr_ne (s : State) (r : Reg) (v : V128) (q : Reg) (h : q ≠ r) :
    wr s r v q = s q := by
  simp [wr, h]

/-! Scalar bridging lemmas between the instruction-level bit manipulations
and the reference lane arithmetic. -/

theorem asr16_dup (b : Nat) (h : b < 256) : asr16 (b + 256 * b) 8 = sxbw b := by
  have hb : b % 256 = b := Nat.mod_eq_of_lt h
  have hw : (b + 256 * b) % 65536 = b + 256 * b := by omega
  simp only [asr16, sxbw, hb, hw]
  norm_num
  split <;> split <;> omega

theorem asr32_dup (w : Nat) (h : w < 65536) :
    asr32 (w + 65536 * w) 16 = sxwd w := by
  have hb : w % 65536 = w := Nat.mod_eq_of_lt h
  have hw : (w + 65536 * w) % 4294967296 = w + 65536 * w := by omega
  simp only [asr32, sxwd, hb, hw]
  norm_num
  split <;> split <;> omega

theorem sxbw_lt (b : Nat) : sxbw b < 65536 := by
  simp only [sxbw]
  split <;> omega

theorem sxbw_mod (b : Nat) : sxbw b % 65536 = sxbw b :=
  Nat.mod_eq_of_lt (sxbw_lt b)

theorem natmul_emod_bridge (u v : Nat) (x y : Int)
    (hu : (u : Int) % 65536 = x % 65536) (hv : (v : Int) % 65536 = y % 65536) :
    (u * v % 65536 : Nat) = Int.toNat ((x * y) % 65536) := by
  have h : ((u * v % 65536 : Nat) : Int) = (x * y) % 65536 := by
    push_cast
    rw [Int.mul_emod, hu, hv, ← Int.mul_emod]
  omega

theorem sxbw_mul (b1 b2 : Nat) (h1 : b1 < 256) (h2 : b2 < 256) :
    sxbw b1 * sxbw b2 % 65536 = smul8 b1 b2 := by
  apply natmul_emod_bridge
  · simp only [sxbw, sint8]
    split <;> push_cast <;> omega
  · simp only [sxbw, sint8]
    split <;> push_cast <;> omega

theorem umul8_eq (x y : Nat) (hx : x < 256) (hy : y < 256) :
    x * y % 65536 = umul8 x y := by
  simp only [umul8, Nat.mod_eq_of_lt hx, Nat.mod_eq_of_lt hy]

theorem psrl_hi_byte (x : Nat) (h : x < 256) : 256 * x % 65536 / 256 = x := by
  omega

theorem sint16_emod (x : Nat) : (x : Int) % 65536 = sint16 x % 65536 := by
  simp only [sint16]
  split <;> push_cast <;> omega

theorem sint16_bounds (x : Nat) : -32768 ≤ sint16 x ∧ sint16 x < 32768 := by
  simp only [sint16]
  split <;> omega

theorem smul16_lo (x y : Nat) : x * y % 65536 = smul16 x y % 65536 := by
  have h : ((x * y % 65536 : Nat) : Int) = (sint16 x * sint16 y) % 65536 := by
    push_cast
    rw [Int.mul_emod, sint16_emod x, sint16_emod y, ← Int.mul_emod]
  unfold smul16
  generalize hp : sint16 x * sint16 y = p at h ⊢
  omega

theorem sint16_mul_bounds (x y : Nat) :
    -2147483648 < sint16 x * sint16 y ∧ sint16 x * sint16 y < 2147483648 := by
  obtain ⟨hx1, hx2⟩ := sint16_bounds x
  obtain ⟨hy1, hy2⟩ := sint16_bounds y
  have h : |sint16 x * sint16 y| ≤ 32768 * 32768 := by
    rw [abs_mul]
    apply mul_le_mul (abs_le.mpr ⟨hx1, by omega⟩) (abs_le.mpr ⟨hy1, by omega⟩)
      (abs_nonneg _) (by norm_num)
  rw [abs_le] at h
  omega

theorem smul16_hi (x y : Nat) : mulhwS x y = smul16 x y / 65536 := by
  obtain ⟨h1, h2⟩ := sint16_mul_bounds x y
  unfold mulhwS smul16
  generalize hp : sint16 x * sint16 y = p at h1 h2 ⊢
  omega

theorem smul16_lt (x y : Nat) : smul16 x y < 4294967296 := by
  unfold smul16
  generalize hp : sint16 x * sint16 y = p
  have h1 := Int.emod_nonneg p (show (4294967296 : Int) ≠ 0 by norm_num)
  have h2 := Int.emod_lt_of_pos p (show (0 : Int) < 4294967296 by norm_num)
  omega

theorem smul16_assemble (x y : Nat) :
    x * y % 65536 % 65536 + 65536 * (mulhwS x y % 65536) = smul16 x y := by
  have h1 := smul16_lo x y
  have h2 := smul16_hi x y
  have h3 := smul16_lt x y
  rw [h1, h2]
  generalize smul16 x y = S at h3 ⊢
  omega

theorem umul16_assemble (x y : Nat) (hx : x < 65536) (hy : y < 65536) :
    x * y % 65536 % 65536 + 65536 * (mulhwU x y % 65536) = umul16 x y := by
  unfold mulhwU umul16
  rw [Nat.mod_eq_of_lt hx, Nat.mod_eq_of_lt hy]
  generalize x * y = u
  omega

theorem sint32_idem (x : Nat) : sint32 (x % 4294967296) = sint32 x := by
  have h : x % 4294967296 % 4294967296 = x % 4294967296 := by omega
  simp only [sint32, h]
  split <;> omega

theorem muldqS_idem (x y : Nat) :
    muldqS (x % 4294967296) (y % 4294967296) = muldqS x y := by
  unfold muldqS
  rw [sint32_idem, sint32_idem]

theorem muldqU_idem (x y : Nat) :
    muldqU (x % 4294967296) (y % 4294967296) = muldqU x y := by
  unfold muldqU
  simp [Nat.mod_mod_of_dvd]

theorem muldqS_comm (x y : Nat) : muldqS x y = muldqS y x := by
  unfold muldqS
  rw [Int.mul_comm]

theorem muldqU_comm (x y : Nat) : muldqU x y = muldqU y x := by
  unfold muldqU
  rw [Nat.mul_comm]

theorem smul8_comm (x y : Nat) : smul8 x y = smul8 y x := by
  unfold smul8
  rw [Int.mul_comm]

theorem umul8_comm (x y : Nat) : umul8 x y = umul8 y x := by
  unfold umul8
  rw [Nat.mul_comm]

theorem smul16_comm (x y : Nat) : smul16 x y = smul16 y x := by
  unfold smul16
  rw [Int.mul_comm]

theorem umul16_comm (x y : Nat) : umul16 x y = umul16 y x := by
  unfold umul16
  rw [Nat.mul_comm]

/-! Vector-level lemmas. -/

theorem ofWords_congr {a0 a1 a2 a3 a4 a5 a6 a7 b0 b1 b2 b3 b4 b5 b6 b7 : Nat}
    (h0 : a0 = b0) (h1 : a1 = b1) (h2 : a2 = b2) (h3 : a3 = b3) (h4 : a4 = b4)
    (h5 : a5 = b5) (h6 : a6 = b6) (h7 : a7 = b7) :
    V128.ofWords a0 a1 a2 a3 a4 a5 a6 a7 = V128.ofWords b0 b1 b2 b3 b4 b5 b6 b7 := by
  rw [h0, h1, h2, h3, h4, h5, h6, h7]

theorem ofDwords_congr {a0 a1 a2 a3 b0 b1 b2 b3 : Nat} (h0 : a0 = b0)
    (h1 : a1 = b1) (h2 : a2 = b2) (h3 : a3 = b3) :
    V128.ofDwords a0 a1 a2 a3 = V128.ofDwords b0 b1 b2 b3 := by
  rw [h0, h1, h2, h3]

theorem ofQwords_congr {a0 a1 b0 b1 : Nat} (h0 : a0 = b0) (h1 : a1 = b1) :
    V128.ofQwords a0 a1 = V128.ofQwords b0 b1 := by
  rw [h0, h1]

theorem ofWords_w0 (x0 x1 x2 x3 x4 x5 x6 x7 : Nat) :
    (V128.ofWords x0 x1 x2 x3 x4 x5 x6 x7).w0 = x0 % 65536 := by
  simp only [V128.ofWords, V128.w0]
  omega

theorem ofWords_w1 (x0 x1 x2 x3 x4 x5 x6 x7 : Nat) :
    (V128.ofWords x0 x1 x2 x3 x4 x5 x6 x7).w1 = x1 % 65536 := by
  simp only [V128.ofWords, V128.w1]
  omega

theorem ofWords_w2 (x0 x1 x2 x3 x4 x5 x6 x7 : Nat) :
    (V128.ofWords x0 x1 x2 x3 x4 x5 x6 x7).w2 = x2 % 65536 := by
  simp only [V128.ofWords, V128.w2]
  omega

theorem ofWords_w3 (x0 x1 x2 x3 x4 x5 x6 x7 : Nat) :
    (V128.ofWords x0 x1 x2 x3 x4 x5 x6 x7).w3 = x3 % 65536 := by
  simp only [V128.ofWords, V128.w3]
  omega

theorem ofWords_w4 (x0 x1 x2 x3 x4 x5 x6 x7 : Nat) :
    (V128.ofWords x0 x1 x2 x3 x4 x5 x6 x7).w4 = x4 % 65536 := by
  simp only [V128.ofWords, V128.w4]
  omega

theorem ofWords_w5 (x0 x1 x2 x3 x4 x5 x6 x7 : Nat) :
    (V128.ofWords x0 x1 x2 x3 x4 x5 x6 x7).w5 = x5 % 65536 := by
  simp only [V128.ofWords, V128.w5]
  omega

theorem ofWords_w6 (x0 x1 x2 x3 x4 x5 x6 x7 : Nat) :
    (V128.ofWords x0 x1 x2 x3 x4 x5 x6 x7).w6 = x6 % 65536 := by
  simp only [V128.ofWords, V128.w6]
  omega

theorem ofWords_w7 (x0 x1 x2 x3 x4 x5 x6 x7 : Nat) :
    (V128.ofWords x0 x1 x2 x3 x4 x5 x6 x7).w7 = x7 % 65536 := by
  simp only [V128.ofWords, V128.w7]
  omega

theorem ofDwords_d0 (x0 x1 x2 x3 : Nat) :
    (V128.ofDwords x0 x1 x2 x3).d0 = x0 % 4294967296 := by
  simp only [V128.ofDwords, V128.d0]
  omega

theorem ofDwords_d1 (x0 x1 x2 x3 : Nat) :
    (V128.ofDwords x0 x1 x2 x3).d1 = x1 % 4294967296 := by
  simp only [V128.ofDwords, V128.d1]
  omega

theorem ofDwords_d2 (x0 x1 x2 x3 : Nat) :
    (V128.ofDwords x0 x1 x2 x3).d2 = x2 % 4294967296 := by
  simp only [V128.ofDwords, V128.d2]
  omega

theorem ofDwords_d3 (x0 x1 x2 x3 : Nat) :
    (V128.ofDwords x0 x1 x2 x3).d3 = x3 % 4294967296 := by
  simp only [V128.ofDwords, V128.d3]
  omega

theorem ofDwords_w0 (x0 x1 x2 x3 : Nat) :
    (V128.ofDwords x0 x1 x2 x3).w0 = x0 % 65536 := by
  simp only [V128.ofDwords, V128.w0]
  omega

theorem ofDwords_w1 (x0 x1 x2 x3 : Nat) :
    (V128.ofDwords x0 x1 x2 x3).w1 = x0 / 65536 % 65536 := by
  simp only [V128.ofDwords, V128.w1]
  omega

theorem ofDwords_w2 (x0 x1 x2 x3 : Nat) :
    (V128.ofDwords x0 x1 x2 x3).w2 = x1 % 65536 := by
  simp only [V128.ofDwords, V128.w2]
  omega

theorem ofDwords_w3 (x0 x1 x2 x3 : Nat) :
    (V128.ofDwords x0 x1 x2 x3).w3 = x1 / 65536 % 65536 := by
  simp only [V128.ofDwords, V128.w3]
  omega

theorem pxor_self (v : V128) : pxor v v = zeroV := by
  simp [pxor, zeroV]

theorem xorps_self (v : V128) : xorps v v = zeroV := by
  simp [xorps, pxor, zeroV]

theorem pmullw_comm (a b : V128) : pmullw a b = pmullw b a := by
  unfold pmullw
  exact ofWords_congr (by rw [Nat.mul_comm]) (by rw [Nat.mul_comm])
    (by rw [Nat.mul_comm]) (by rw [Nat.mul_comm]) (by rw [Nat.mul_comm])
    (by rw [Nat.mul_comm]) (by rw [Nat.mul_comm]) (by rw [Nat.mul_comm])

theorem pmullw_zero (v : V128) : pmullw v zeroV = zeroV := by
  simp [pmullw, zeroV, V128.w0, V128.w1, V128.w2, V128.w3, V128.w4, V128.w5,
    V128.w6, V128.w7, V128.ofWords]

theorem extMulHighSRef_comm (a b : V128) : extMulHighSRef a b = extMulHighSRef b a := by
  unfold extMulHighSRef
  exact ofWords_congr (smul8_comm _ _) (smul8_comm _ _) (smul8_comm _ _)
    (smul8_comm _ _) (smul8_comm _ _) (smul8_comm _ _) (smul8_comm _ _)
    (smul8_comm _ _)

theorem extMulHighURef_comm (a b : V128) : extMulHighURef a b = extMulHighURef b a := by
  unfold extMulHighURef
  exact ofWords_congr (umul8_comm _ _) (umul8_comm _ _) (umul8_comm _ _)
    (umul8_comm _ _) (umul8_comm _ _) (umul8_comm _ _) (umul8_comm _ _)
    (umul8_comm _ _)

theorem psraw_unpack_self (v : V128) (hv : v.Wf) :
    psraw (punpckhbw v v) 8 = sconv8Ref v := by
  obtain ⟨-, -, -, -, -, -, -, -, h8, h9, h10, h11, h12, h13, h14, h15⟩ := hv
  simp only [psraw, punpckhbw, V128.w0, V128.w1, V128.w2, V128.w3, V128.w4,
    V128.w5, V128.w6, V128.w7, sconv8Ref]
  exact ofWords_congr (asr16_dup _ h8) (asr16_dup _ h9) (asr16_dup _ h10)
    (asr16_dup _ h11) (asr16_dup _ h12) (asr16_dup _ h13) (asr16_dup _ h14)
    (asr16_dup _ h15)

theorem extMulS_value (a b : V128) (ha : a.Wf) (hb : b.Wf) :
    pmullw (sconv8Ref a) (sconv8Ref b) = extMulHighSRef a b := by
  obtain ⟨-, -, -, -, -, -, -, -, ha8, ha9, ha10, ha11, ha12, ha13, ha14, ha15⟩ := ha
  obtain ⟨-, -, -, -, -, -, -, -, hb8, hb9, hb10, hb11, hb12, hb13, hb14, hb15⟩ := hb
  simp only [pmullw, sconv8Ref, ofWords_w0, ofWords_w1, ofWords_w2, ofWords_w3,
    ofWords_w4, ofWords_w5, ofWords_w6, ofWords_w7, sxbw_mod, extMulHighSRef]
  exact ofWords_congr (sxbw_mul _ _ ha8 hb8) (sxbw_mul _ _ ha9 hb9)
    (sxbw_mul _ _ ha10 hb10) (sxbw_mul _ _ ha11 hb11) (sxbw_mul _ _ ha12 hb12)
    (sxbw_mul _ _ ha13 hb13) (sxbw_mul _ _ ha14 hb14) (sxbw_mul _ _ ha15 hb15)

theorem unpack_zero8 (v : V128) (hv : v.Wf) : punpckhbw v zeroV = uconv8Ref v := by
  obtain ⟨-, -, -, -, -, -, -, -, h8, h9, h10, h11, h12, h13, h14, h15⟩ := hv
  simp only [punpckhbw, zeroV, uconv8Ref, V128.ofWords, V128.mk.injEq]
  omega

theorem m256_65536 (x : Nat) : x % 256 % 65536 = x % 256 := by
  omega

theorem extMulU_value (a b : V128) :
    pmullw (uconv8Ref a) (uconv8Ref b) = extMulHighURef a b := by
  simp only [pmullw, uconv8Ref, ofWords_w0, ofWords_w1, ofWords_w2, ofWords_w3,
    ofWords_w4, ofWords_w5, ofWords_w6, ofWords_w7, extMulHighURef, umul8,
    m256_65536]

theorem psrl8_z (x : Nat) (h : x < 256) : (0 + 256 * x) % 65536 / 2 ^ 8 = x % 256 := by
  norm_num
  omega

theorem psrlw_unpack_zero (v : V128) (hv : v.Wf) :
    psrlw (punpckhbw zeroV v) 8 = uconv8Ref v := by
  obtain ⟨-, -, -, -, -, -, -, -, h8, h9, h10, h11, h12, h13, h14, h15⟩ := hv
  simp only [psrlw, punpckhbw, zeroV, V128.w0, V128.w1, V128.w2, V128.w3,
    V128.w4, V128.w5, V128.w6, V128.w7, uconv8Ref]
  exact ofWords_congr (psrl8_z _ h8) (psrl8_z _ h9) (psrl8_z _ h10)
    (psrl8_z _ h11) (psrl8_z _ h12) (psrl8_z _ h13) (psrl8_z _ h14)
    (psrl8_z _ h15)

theorem asr32_dup2 (x y : Nat) (hx : x < 256) (hy : y < 256) :
    asr32 (x + 256 * y + 65536 * x + 16777216 * y) 16 = sxwd (x + 256 * y) := by
  have h : x + 256 * y + 65536 * x + 16777216 * y
      = (x + 256 * y) + 65536 * (x + 256 * y) := by ring
  rw [h]
  exact asr32_dup _ (by omega)

theorem psrad_unpack_self (v : V128) (hv : v.Wf) :
    psrad (punpckhwd v v) 16 = sconv16Ref v := by
  obtain ⟨-, -, -, -, -, -, -, -, h8, h9, h10, h11, h12, h13, h14, h15⟩ := hv
  simp only [psrad, punpckhwd, V128.d0, V128.d1, V128.d2, V128.d3, sconv16Ref,
    V128.w4, V128.w5, V128.w6, V128.w7]
  exact ofDwords_congr (asr32_dup2 _ _ h8 h9) (asr32_dup2 _ _ h10 h11)
    (asr32_dup2 _ _ h12 h13) (asr32_dup2 _ _ h14 h15)

theorem pshufd_EE (v : V128) : pshufd v 0xEE = V128.ofDwords v.d2 v.d3 v.d2 v.d3 := by
  norm_num [pshufd, V128.dsel]

theorem pshufd_50 (v : V128) : pshufd v 0x50 = V128.ofDwords v.d0 v.d0 v.d1 v.d1 := by
  norm_num [pshufd, V128.dsel]

theorem pshufd_FA (v : V128) : pshufd v 0xFA = V128.ofDwords v.d2 v.d2 v.d3 v.d3 := by
  norm_num [pshufd, V128.dsel]

theorem movhlps_self_sconv8 (v : V128) :
    pmovsxbw (movhlps v v) = sconv8Ref v := by
  simp only [pmovsxbw, movhlps, sconv8Ref]

theorem pshufd_sconv8 (v : V128) (hv : v.Wf) :
    pmovsxbw (pshufd v 0xEE) = sconv8Ref v := by
  obtain ⟨-, -, -, -, -, -, -, -, h8, h9, h10, h11, h12, h13, h14, h15⟩ := hv
  rw [pshufd_EE]
  simp only [pmovsxbw, V128.ofDwords, sconv8Ref, V128.d2, V128.d3]
  exact ofWords_congr (congrArg sxbw (by omega)) (congrArg sxbw (by omega))
    (congrArg sxbw (by omega)) (congrArg sxbw (by omega))
    (congrArg sxbw (by omega)) (congrArg sxbw (by omega))
    (congrArg sxbw (by omega)) (congrArg sxbw (by omega))

theorem pshufd_uconv8 (v : V128) (hv : v.Wf) :
    pmovzxbw (pshufd v 0xEE) = uconv8Ref v := by
  obtain ⟨-, -, -, -, -, -, -, -, h8, h9, h10, h11, h12, h13, h14, h15⟩ := hv
  rw [pshufd_EE]
  simp only [pmovzxbw, V128.ofDwords, uconv8Ref, V128.d2, V128.d3]
  exact ofWords_congr (by omega) (by omega) (by omega) (by omega) (by omega)
    (by omega) (by omega) (by omega)

theorem movhlps_self_sconv16 (v : V128) :
    pmovsxwd (movhlps v v) = sconv16Ref v := by
  simp only [pmovsxwd, movhlps, sconv16Ref, V128.w0, V128.w1, V128.w2, V128.w3,
    V128.w4, V128.w5, V128.w6, V128.w7]

theorem pshufd_sconv16 (v : V128) (hv : v.Wf) :
    pmovsxwd (pshufd v 0xEE) = sconv16Ref v := by
  obtain ⟨-, -, -, -, -, -, -, -, h8, h9, h10, h11, h12, h13, h14, h15⟩ := hv
  rw [pshufd_EE]
  simp only [pmovsxwd, sconv16Ref, ofDwords_w0, ofDwords_w1, ofDwords_w2,
    ofDwords_w3, V128.d2, V128.d3, V128.w4, V128.w5, V128.w6, V128.w7]
  exact ofDwords_congr (congrArg sxwd (by omega)) (congrArg sxwd (by omega))
    (congrArg sxwd (by omega)) (congrArg sxwd (by omega))

theorem pshufd_uconv16 (v : V128) (hv : v.Wf) :
    pmovzxwd (pshufd v 0xEE) = uconv16Ref v := by
  obtain ⟨-, -, -, -, -, -, -, -, h8, h9, h10, h11, h12, h13, h14, h15⟩ := hv
  rw [pshufd_EE]
  simp only [pmovzxwd, uconv16Ref, ofDwords_w0, ofDwords_w1, ofDwords_w2,
    ofDwords_w3, V128.d2, V128.d3, V128.w4, V128.w5, V128.w6, V128.w7]
  exact ofDwords_congr (by omega) (by omega) (by omega) (by omega)

theorem unpack_zero16 (v : V128) (hv : v.Wf) :
    punpckhwd v zeroV = uconv16Ref v := by
  obtain ⟨-, -, -, -, -, -, -, -, h8, h9, h10, h11, h12, h13, h14, h15⟩ := hv
  simp only [punpckhwd, zeroV, uconv16Ref, V128.ofDwords, V128.w4, V128.w5,
    V128.w6, V128.w7, V128.mk.injEq]
  omega

theorem punpckhqdq_self_sconv32 (v : V128) :
    pmovsxdq (punpckhqdq v v) = sconv32Ref v := by
  simp only [pmovsxdq, punpckhqdq, sconv32Ref, V128.d0, V128.d1, V128.d2, V128.d3]

theorem movhlps_self_sconv32 (v : V128) :
    pmovsxdq (movhlps v v) = sconv32Ref v := by
  simp only [pmovsxdq, movhlps, sconv32Ref, V128.d0, V128.d1, V128.d2, V128.d3]

theorem sxdq_idem (x : Nat) : sxdq (x % 4294967296) = sxdq x := by
  have h : x % 4294967296 % 4294967296 = x % 4294967296 := by omega
  simp only [sxdq, h]

theorem pshufd_sconv32 (v : V128) :
    pmovsxdq (pshufd v 0xEE) = sconv32Ref v := by
  rw [pshufd_EE]
  simp only [pmovsxdq, sconv32Ref, ofDwords_d0, ofDwords_d1]
  exact ofQwords_congr (sxdq_idem _) (sxdq_idem _)

theorem unpack_zero32 (v : V128) (hv : v.Wf) :
    punpckhdq v zeroV = uconv32Ref v := by
  obtain ⟨-, -, -, -, -, -, -, -, h8, h9, h10, h11, h12, h13, h14, h15⟩ := hv
  simp only [punpckhdq, zeroV, uconv32Ref, V128.ofQwords, V128.d2, V128.d3,
    V128.mk.injEq]
  omega

theorem Wf_words (v : V128) (hv : v.Wf) :
    v.w0 < 65536 ∧ v.w1 < 65536 ∧ v.w2 < 65536 ∧ v.w3 < 65536 ∧
    v.w4 < 65536 ∧ v.w5 < 65536 ∧ v.w6 < 65536 ∧ v.w7 < 65536 := by
  obtain ⟨h0, h1, h2, h3, h4, h5, h6, h7, h8, h9, h10, h11, h12, h13, h14, h15⟩ := hv
  simp only [V128.w0, V128.w1, V128.w2, V128.w3, V128.w4, V128.w5, V128.w6,
    V128.w7]
  omega

theorem punpckldq_self (v : V128) (hv : v.Wf) :
    punpckldq v v = dupLanes v true := by
  obtain ⟨h0, h1, h2, h3, h4, h5, h6, h7, h8, h9, h10, h11, h12, h13, h14, h15⟩ := hv
  simp only [punpckldq, dupLanes, if_true, V128.ofDwords, V128.d0, V128.d1,
    V128.mk.injEq]
  omega

theorem punpckhdq_self (v : V128) (hv : v.Wf) :
    punpckhdq v v = dupLanes v false := by
  obtain ⟨h0, h1, h2, h3, h4, h5, h6, h7, h8, h9, h10, h11, h12, h13, h14, h15⟩ := hv
  simp only [punpckhdq, dupLanes, if_false, Bool.false_eq_true, V128.ofDwords,
    V128.d2, V128.d3, V128.mk.injEq]
  omega

theorem pshufd_dup_low (v : V128) : pshufd v 0x50 = dupLanes v true := by
  rw [pshufd_50]
  simp [dupLanes]

theorem pshufd_dup_high (v : V128) : pshufd v 0xFA = dupLanes v false := by
  rw [pshufd_FA]
  simp [dupLanes]

theorem pmuldq_dup (a b : V128) (low : Bool) :
    pmuldq (dupLanes a low) (dupLanes b low)
      = (if low then V128.ofQwords (muldqS a.d0 b.d0) (muldqS a.d1 b.d1)
         else V128.ofQwords (muldqS a.d2 b.d2) (muldqS a.d3 b.d3)) := by
  cases low <;>
    simp only [pmuldq, dupLanes, if_true, if_false, Bool.false_eq_true,
      ofDwords_d0, ofDwords_d2] <;>
    exact ofQwords_congr (muldqS_idem _ _) (muldqS_idem _ _)

theorem pmuludq_dup (a b : V128) (low : Bool) :
    pmuludq (dupLanes a low) (dupLanes b low)
      = (if low then V128.ofQwords (muldqU a.d0 b.d0) (muldqU a.d1 b.d1)
         else V128.ofQwords (muldqU a.d2 b.d2) (muldqU a.d3 b.d3)) := by
  cases low <;>
    simp only [pmuludq, dupLanes, if_true, if_false, Bool.false_eq_true,
      ofDwords_d0, ofDwords_d2] <;>
    exact ofQwords_congr (muldqU_idem _ _) (muldqU_idem _ _)

theorem pmuldq_comm (a b : V128) : pmuldq a b = pmuldq b a := by
  unfold pmuldq
  exact ofQwords_congr (muldqS_comm _ _) (muldqS_comm _ _)

theorem pmuludq_comm (a b : V128) : pmuludq a b = pmuludq b a := by
  unfold pmuludq
  exact ofQwords_congr (muldqU_comm _ _) (muldqU_comm _ _)

theorem extMulI64_value (a b : V128) (low is_signed : Bool) :
    (if is_signed then pmuldq (dupLanes a low) (dupLanes b low)
     else pmuludq (dupLanes a low) (dupLanes b low))
      = extMulI64Ref a b low is_signed := by
  cases is_signed <;> cases low <;>
    simp only [pmuldq_dup, pmuludq_dup, extMulI64Ref, if_true, if_false,
      Bool.false_eq_true]

theorem punpcklwd_ofWords (x0 x1 x2 x3 x4 x5 x6 x7 y0 y1 y2 y3 y4 y5 y6 y7 : Nat) :
    punpcklwd (V128.ofWords x0 x1 x2 x3 x4 x5 x6 x7)
        (V128.ofWords y0 y1 y2 y3 y4 y5 y6 y7)
      = V128.ofDwords (x0 % 65536 + 65536 * (y0 % 65536))
          (x1 % 65536 + 65536 * (y1 % 65536)) (x2 % 65536 + 65536 * (y2 % 65536))
          (x3 % 65536 + 65536 * (y3 % 65536)) := by
  simp only [punpcklwd, V128.ofWords, V128.ofDwords, V128.mk.injEq]
  omega

theorem punpckhwd_ofWords (x0 x1 x2 x3 x4 x5 x6 x7 y0 y1 y2 y3 y4 y5 y6 y7 : Nat) :
    punpckhwd (V128.ofWords x0 x1 x2 x3 x4 x5 x6 x7)
        (V128.ofWords y0 y1 y2 y3 y4 y5 y6 y7)
      = V128.ofDwords (x4 % 65536 + 65536 * (y4 % 65536))
          (x5 % 65536 + 65536 * (y5 % 65536)) (x6 % 65536 + 65536 * (y6 % 65536))
          (x7 % 65536 + 65536 * (y7 % 65536)) := by
  simp only [punpckhwd, V128.ofWords, V128.ofDwords, V128.mk.injEq]
  omega

theorem extMulI32_value (a b : V128) (ha : a.Wf) (hb : b.Wf) (low is_signed : Bool) :
    (if low then
      punpcklwd (pmullw a b) (if is_signed then pmulhw a b else pmulhuw a b)
     else
      punpckhwd (pmullw a b) (if is_signed then pmulhw a b else pmulhuw a b))
      = extMulI32Ref a b low is_signed := by
  obtain ⟨hw0, hw1, hw2, hw3, hw4, hw5, hw6, hw7⟩ := Wf_words a ha
  obtain ⟨hy0, hy1, hy2, hy3, hy4, hy5, hy6, hy7⟩ := Wf_words b hb
  cases is_signed <;> cases low <;>
    simp only [pmullw, pmulhw, pmulhuw, extMulI32Ref, if_true, if_false,
      Bool.false_eq_true, punpcklwd_ofWords, punpckhwd_ofWords]
  · exact ofDwords_congr (umul16_assemble _ _ hw4 hy4) (umul16_assemble _ _ hw5 hy5)
      (umul16_assemble _ _ hw6 hy6) (umul16_assemble _ _ hw7 hy7)
  · exact ofDwords_congr (umul16_assemble _ _ hw0 hy0) (umul16_assemble _ _ hw1 hy1)
      (umul16_assemble _ _ hw2 hy2) (umul16_assemble _ _ hw3 hy3)
  · exact ofDwords_congr (smul16_assemble _ _) (smul16_assemble _ _)
      (smul16_assemble _ _) (smul16_assemble _ _)
  · exact ofDwords_congr (smul16_assemble _ _) (smul16_assemble _ _)
      (smul16_assemble _ _) (smul16_assemble _ _)

/-! Correctness of each operation against its scalar reference, in every
supported configuration.  `scratch` is assumed distinct from the operand
registers throughout, which is how the callers allocate it. -/

theorem corrS_avx (dst src1 src2 scratch : Reg) (hsd : scratch ≠ dst)
    (hs1 : scratch ≠ src1) (hs2 : scratch ≠ src2) (s : State)
    (hw1 : (s src1).Wf) (hw2 : (s src2).Wf) :
    I16x8ExtMulHighS true dst src1 src2 scratch s dst
      = extMulHighSRef (s src1) (s src2) := by
  simp only [I16x8ExtMulHighS, if_true]
  simp [wr, hsd, hs1, hs2, Ne.symm hsd, Ne.symm hs1, Ne.symm hs2]
  rw [psraw_unpack_self _ hw2, psraw_unpack_self _ hw1,
    extMulS_value _ _ hw2 hw1, extMulHighSRef_comm]

theorem corrS_sse (dst src1 src2 scratch : Reg) (hsd : scratch ≠ dst)
    (hs1 : scratch ≠ src1) (hs2 : scratch ≠ src2) (s : State)
    (hw1 : (s src1).Wf) (hw2 : (s src2).Wf)
    (good : dst = src1 ∨ dst ≠ src2) :
    I16x8ExtMulHighS false dst src1 src2 scratch s dst
      = extMulHighSRef (s src1) (s src2) := by
  by_cases hd1 : dst = src1
  · subst hd1
    simp [I16x8ExtMulHighS, wr, hsd, hs2, Ne.symm hsd, Ne.symm hs2]
    rw [psraw_unpack_self _ hw1, psraw_unpack_self _ hw2,
      extMulS_value _ _ hw1 hw2]
  · have hd2 : dst ≠ src2 := good.resolve_left hd1
    simp [I16x8ExtMulHighS, wr, hsd, hs1, hs2, hd1, hd2, Ne.symm hsd,
      Ne.symm hs1, Ne.symm hs2, Ne.symm hd2]
    rw [psraw_unpack_self _ hw1, psraw_unpack_self _ hw2,
      extMulS_value _ _ hw1 hw2]

theorem corrU_avx (dst src1 src2 scratch : Reg) (hsd : scratch ≠ dst)
    (hs1 : scratch ≠ src1) (hs2 : scratch ≠ src2) (s : State)
    (hw1 : (s src1).Wf) (hw2 : (s src2).Wf) :
    I16x8ExtMulHighU true dst src1 src2 scratch s dst
      = extMulHighURef (s src1) (s src2) := by
  by_cases h12 : src1 = src2
  · subst h12
    simp [I16x8ExtMulHighU, wr, hsd, hs1, Ne.symm hsd, Ne.symm hs1, pxor_self]
    rw [unpack_zero8 _ hw1, extMulU_value]
  · by_cases hd2 : dst = src2
    · subst hd2
      simp [I16x8ExtMulHighU, wr, hsd, hs1, hs2, h12, Ne.symm hsd, Ne.symm hs1,
        Ne.symm hs2, pxor_self]
      rw [unpack_zero8 _ hw2, unpack_zero8 _ hw1, extMulU_value,
        extMulHighURef_comm]
    · simp [I16x8ExtMulHighU, wr, hsd, hs1, hs2, h12, hd2, Ne.symm hsd,
        Ne.symm hs1, Ne.symm hs2, Ne.symm hd2, pxor_self]
      rw [unpack_zero8 _ hw1, unpack_zero8 _ hw2, extMulU_value]

theorem corrU_sse (dst src1 src2 scratch : Reg) (hsd : scratch ≠ dst)
    (hs1 : scratch ≠ src1) (hs2 : scratch ≠ src2) (s : State)
    (hw1 : (s src1).Wf) (hw2 : (s src2).Wf) (h12 : src1 ≠ src2) :
    I16x8ExtMulHighU false dst src1 src2 scratch s dst
      = extMulHighURef (s src1) (s src2) := by
  by_cases hd2 : dst = src2
  · subst hd2
    simp [I16x8ExtMulHighU, wr, hsd, hs1, hs2, h12, Ne.symm hsd, Ne.symm hs1,
      Ne.symm hs2, xorps_self]
    rw [psrlw_unpack_zero _ hw1, unpack_zero8 _ hw2, extMulU_value,
      extMulHighURef_comm]
  · by_cases hd1 : dst = src1
    · subst hd1
      simp [I16x8ExtMulHighU, wr, hsd, hs2, h12, hd2, Ne.symm hsd, Ne.symm hs2,
        Ne.symm hd2, xorps_self]
      rw [psrlw_unpack_zero _ hw2, unpack_zero8 _ hw1, extMulU_value]
    · simp [I16x8ExtMulHighU, wr, hsd, hs1, hs2, h12, hd1, hd2, Ne.symm hsd,
        Ne.symm hs1, Ne.symm hs2, Ne.symm hd1, Ne.symm hd2, xorps_self]
      rw [psrlw_unpack_zero _ hw2, unpack_zero8 _ hw1, extMulU_value]

theorem corrI32_avx (dst src1 src2 scratch : Reg) (hsd : scratch ≠ dst)
    (hs1 : scratch ≠ src1) (hs2 : scratch ≠ src2) (low is_signed : Bool)
    (s : State) (hw1 : (s src1).Wf) (hw2 : (s src2).Wf) :
    I32x4ExtMul true dst src1 src2 scratch low is_signed s dst
      = extMulI32Ref (s src1) (s src2) low is_signed := by
  simp [I32x4ExtMul, wr, hsd, hs1, hs2, Ne.symm hsd, Ne.symm hs1, Ne.symm hs2]
  exact extMulI32_value _ _ hw1 hw2 low is_signed

theorem corrI32_sse (dst src2 scratch : Reg) (hsd : scratch ≠ dst)
    (hs2 : scratch ≠ src2) (hd2 : dst ≠ src2) (low is_signed : Bool)
    (s : State) (hw1 : (s dst).Wf) (hw2 : (s src2).Wf) :
    I32x4ExtMul false dst dst src2 scratch low is_signed s dst
      = extMulI32Ref (s dst) (s src2) low is_signed := by
  simp [I32x4ExtMul, wr, hsd, hs2, hd2, Ne.symm hsd, Ne.symm hs2, Ne.symm hd2]
  exact extMulI32_value _ _ hw1 hw2 low is_signed

theorem corrI64_avx (dst src1 src2 scratch : Reg) (hsd : scratch ≠ dst)
    (hs1 : scratch ≠ src1) (hs2 : scratch ≠ src2) (low is_signed : Bool)
    (s : State) (hw1 : (s src1).Wf) (hw2 : (s src2).Wf) :
    I64x2ExtMul true dst src1 src2 scratch low is_signed s dst
      = extMulI64Ref (s src1) (s src2) low is_signed := by
  cases low
  · simp [I64x2ExtMul, wr, hsd, hs1, hs2, Ne.symm hsd, Ne.symm hs1, Ne.symm hs2]
    rw [punpckhdq_self _ hw1, punpckhdq_self _ hw2]
    exact extMulI64_value _ _ false is_signed
  · simp [I64x2ExtMul, wr, hsd, hs1, hs2, Ne.symm hsd, Ne.symm hs1, Ne.symm hs2]
    rw [punpckldq_self _ hw1, punpckldq_self _ hw2]
    exact extMulI64_value _ _ true is_signed

theorem corrI64_sse (dst src1 src2 scratch : Reg) (hsd : scratch ≠ dst)
    (hs1 : scratch ≠ src1) (hs2 : scratch ≠ src2) (low is_signed : Bool)
    (s : State) (hw1 : (s src1).Wf) (hw2 : (s src2).Wf) :
    I64x2ExtMul false dst src1 src2 scratch low is_signed s dst
      = extMulI64Ref (s src1) (s src2) low is_signed := by
  cases low <;>
    cases is_signed <;>
    simp [I64x2ExtMul, wr, hsd, hs1, hs2, Ne.symm hsd, Ne.symm hs1, Ne.symm hs2,
      pshufd_dup_low, pshufd_dup_high]
  · rw [pmuludq_comm]
    have h := extMulI64_value (s src1) (s src2) false false
    simpa using h
  · rw [pmuldq_comm]
    have h := extMulI64_value (s src1) (s src2) false true
    simpa using h
  · rw [pmuludq_comm]
    have h := extMulI64_value (s src1) (s src2) true false
    simpa using h
  · rw [pmuldq_comm]
    have h := extMulI64_value (s src1) (s src2) true true
    simpa using h

theorem corrSconv8 (avx : Bool) (dst src : Reg) (s : State) (hw : (s src).Wf) :
    I16x8SConvertI8x16High avx dst src s dst = sconv8Ref (s src) := by
  cases avx
  · by_cases hds : dst = src
    · subst hds
      simp [I16x8SConvertI8x16High, wr]
      exact movhlps_self_sconv8 _
    · simp [I16x8SConvertI8x16High, wr, hds]
      exact pshufd_sconv8 _ hw
  · simp [I16x8SConvertI8x16High, wr]
    exact psraw_unpack_self _ hw

theorem corrUconv8 (avx : Bool) (dst src scratch : Reg) (hsd : scratch ≠ dst)
    (hss : scratch ≠ src) (s : State) (hw : (s src).Wf) :
    I16x8UConvertI8x16High avx dst src scratch s dst = uconv8Ref (s src) := by
  cases avx
  · by_cases hds : dst = src
    · subst hds
      simp [I16x8UConvertI8x16High, wr, hsd, Ne.symm hsd, xorps_self]
      exact unpack_zero8 _ hw
    · simp [I16x8UConvertI8x16High, wr, hds]
      exact pshufd_uconv8 _ hw
  · by_cases hds : dst = src
    · subst hds
      simp [I16x8UConvertI8x16High, wr, hsd, Ne.symm hsd, pxor_self]
      exact unpack_zero8 _ hw
    · simp [I16x8UConvertI8x16High, wr, hds, Ne.symm hds, pxor_self]
      exact unpack_zero8 _ hw

theorem corrSconv16 (avx : Bool) (dst src : Reg) (s : State) (hw : (s src).Wf) :
    I32x4SConvertI16x8High avx dst src s dst = sconv16Ref (s src) := by
  cases avx
  · by_cases hds : dst = src
    · subst hds
      simp [I32x4SConvertI16x8High, wr]
      exact movhlps_self_sconv16 _
    · simp [I32x4SConvertI16x8High, wr, hds]
      exact pshufd_sconv16 _ hw
  · simp [I32x4SConvertI16x8High, wr]
    exact psrad_unpack_self _ hw

theorem corrUconv16 (avx : Bool) (dst src scratch : Reg) (hsd : scratch ≠ dst)
    (hss : scratch ≠ src) (s : State) (hw : (s src).Wf) :
    I32x4UConvertI16x8High avx dst src scratch s dst = uconv16Ref (s src) := by
  cases avx
  · by_cases hds : dst = src
    · subst hds
      simp [I32x4UConvertI16x8High, wr, hsd, Ne.symm hsd, xorps_self]
      exact unpack_zero16 _ hw
    · simp [I32x4UConvertI16x8High, wr, hds]
      exact pshufd_uconv16 _ hw
  · by_cases hds : dst = src
    · subst hds
      simp [I32x4UConvertI16x8High, wr, hsd, Ne.symm hsd, pxor_self]
      exact unpack_zero16 _ hw
    · simp [I32x4UConvertI16x8High, wr, hds, Ne.symm hds, pxor_self]
      exact unpack_zero16 _ hw

theorem corrSconv32 (avx : Bool) (dst src : Reg) (s : State) :
    I64x2SConvertI32x4High avx dst src s dst = sconv32Ref (s src) := by
  cases avx
  · by_cases hds : dst = src
    · subst hds
      simp [I64x2SConvertI32x4High, wr]
      exact movhlps_self_sconv32 _
    · simp [I64x2SConvertI32x4High, wr, hds]
      exact pshufd_sconv32 _
  · simp [I64x2SConvertI32x4High, wr]
    exact punpckhqdq_self_sconv32 _

theorem corrUconv32 (avx : Bool) (dst src scratch : Reg) (hsd : scratch ≠ dst)
    (hss : scratch ≠ src) (s : State) (hw : (s src).Wf) :
    I64x2UConvertI32x4High avx dst src scratch s dst = uconv32Ref (s src) := by
  cases avx
  · by_cases hds : dst = src
    · subst hds
      simp [I64x2UConvertI32x4High, wr, hsd, Ne.symm hsd, xorps_self]
      exact unpack_zero32 _ hw
    · simp [I64x2UConvertI32x4High, wr, hsd, hss, hds, Ne.symm hsd,
        Ne.symm hss, Ne.symm hds, xorps_self]
      exact unpack_zero32 _ hw
  · simp [I64x2UConvertI32x4High, wr, hsd, hss, Ne.symm hsd, Ne.symm hss,
      pxor_self]
    exact unpack_zero32 _ hw

theorem extMulI32Ref_comm (a b : V128) (low is_signed : Bool) :
    extMulI32Ref a b low is_signed = extMulI32Ref b a low is_signed := by
  cases low <;> cases is_signed <;>
    simp only [extMulI32Ref, if_true, if_false, Bool.false_eq_true] <;>
    first
      | exact ofDwords_congr (by rw [smul16_comm]) (by rw [smul16_comm])
          (by rw [smul16_comm]) (by rw [smul16_comm])
      | exact ofDwords_congr (by rw [umul16_comm]) (by rw [umul16_comm])
          (by rw [umul16_comm]) (by rw [umul16_comm])

theorem extMulI64Ref_comm (a b : V128) (low is_signed : Bool) :
    extMulI64Ref a b low is_signed = extMulI64Ref b a low is_signed := by
  cases low <;> cases is_signed <;>
    simp only [extMulI64Ref, if_true, if_false, Bool.false_eq_true] <;>
    first
      | exact ofQwords_congr (by rw [muldqS_comm]) (by rw [muldqS_comm])
      | exact ofQwords_congr (by rw [muldqU_comm]) (by rw [muldqU_comm])

theorem stepsI64_dst (dst src1 src2 scratch : Reg) (hsd : scratch ≠ dst)
    (hs1 : scratch ≠ src1) (hs2 : scratch ≠ src2) (low is_signed : Bool)
    (s : State) :
    I64x2ExtMulSteps dst src1 src2 scratch low is_signed s dst
      = extMulI64Ref (s src1) (s src2) low is_signed := by
  simp [I64x2ExtMulSteps, wr, hsd, hs1, hs2, Ne.symm hsd, Ne.symm hs1,
    Ne.symm hs2]
  exact extMulI64_value _ _ low is_signed

theorem I64_steps_eq (avx : Bool) (dst src1 src2 scratch : Reg)
    (hsd : scratch ≠ dst) (hs1 : scratch ≠ src1) (hs2 : scratch ≠ src2)
    (low is_signed : Bool) (s : State) (hw1 : (s src1).Wf) (hw2 : (s src2).Wf) :
    I64x2ExtMul avx dst src1 src2 scratch low is_signed s
      = I64x2ExtMulSteps dst src1 src2 scratch low is_signed s := by
  funext r
  by_cases hrd : r = dst
  · subst hrd
    rw [stepsI64_dst r src1 src2 scratch hsd hs1 hs2 low is_signed s]
    cases avx
    · exact corrI64_sse r src1 src2 scratch hsd hs1 hs2 low is_signed s hw1 hw2
    · exact corrI64_avx r src1 src2 scratch hsd hs1 hs2 low is_signed s hw1 hw2
  · by_cases hrs : r = scratch
    · subst hrs
      cases avx <;> cases low <;>
        simp [I64x2ExtMul, I64x2ExtMulSteps, wr, hrd, Ne.symm hrd,
          pshufd_dup_low, pshufd_dup_high]
      · rw [punpckhdq_self _ hw1]
      · rw [punpckldq_self _ hw1]
    · cases avx <;> cases low <;>
        simp [I64x2ExtMul, I64x2ExtMulSteps, wr, hrd, hrs]

theorem I32_avx_steps (dst src1 src2 scratch : Reg) (low is_signed : Bool)
    (s : State) :
    I32x4ExtMul true dst src1 src2 scratch low is_signed s
      = I32x4ExtMulSteps dst src1 src2 scratch low is_signed s := rfl

theorem I32_sse_steps_dst (dst src2 scratch : Reg) (hsd : scratch ≠ dst)
    (hs2 : scratch ≠ src2) (hd2 : dst ≠ src2) (low is_signed : Bool)
    (s : State) :
    I32x4ExtMul false dst dst src2 scratch low is_signed s dst
      = I32x4ExtMulSteps dst dst src2 scratch low is_signed s dst := by
  simp [I32x4ExtMul, I32x4ExtMulSteps, wr, hsd, hs2, hd2, Ne.symm hsd,
    Ne.symm hs2, Ne.symm hd2]

/-! Frame lemmas: each operation writes only the destination and scratch
registers. -/

theorem frameS (avx : Bool) (dst src1 src2 scratch : Reg) (s : State) (r : Reg)
    (hrd : r ≠ dst) (hrs : r ≠ scratch) :
    I16x8ExtMulHighS avx dst src1 src2 scratch s r = s r := by
  cases avx
  · by_cases hd1 : dst = src1
    · subst hd1
      simp [I16x8ExtMulHighS, wr, hrd, hrs]
    · simp [I16x8ExtMulHighS, wr, hrd, hrs, hd1]
  · simp [I16x8ExtMulHighS, wr, hrd, hrs]

theorem frameU (avx : Bool) (dst src1 src2 scratch : Reg) (s : State) (r : Reg)
    (hrd : r ≠ dst) (hrs : r ≠ scratch) :
    I16x8ExtMulHighU avx dst src1 src2 scratch s r = s r := by
  cases avx <;> by_cases h12 : src1 = src2
  · subst h12
    by_cases hd1 : dst = src1
    · subst hd1
      simp [I16x8ExtMulHighU, wr, hrd, hrs]
    · simp [I16x8ExtMulHighU, wr, hrd, hrs, hd1]
  · by_cases hd2 : dst = src2
    · subst hd2
      simp [I16x8ExtMulHighU, wr, hrd, hrs, h12]
    · by_cases hd1 : dst = src1
      · subst hd1
        simp [I16x8ExtMulHighU, wr, hrd, hrs, h12, hd2]
      · simp [I16x8ExtMulHighU, wr, hrd, hrs, h12, hd2, hd1]
  · subst h12
    simp [I16x8ExtMulHighU, wr, hrd, hrs]
  · by_cases hd2 : dst = src2
    · subst hd2
      simp [I16x8ExtMulHighU, wr, hrd, hrs, h12]
    · simp [I16x8ExtMulHighU, wr, hrd, hrs, h12, hd2]

theorem frameI32 (avx : Bool) (dst src1 src2 scratch : Reg)
    (low is_signed : Bool) (s : State) (r : Reg) (hrd : r ≠ dst)
    (hrs : r ≠ scratch) :
    I32x4ExtMul avx dst src1 src2 scratch low is_signed s r = s r := by
  cases avx <;> simp [I32x4ExtMul, wr, hrd, hrs]

theorem frameI64 (avx : Bool) (dst src1 src2 scratch : Reg)
    (low is_signed : Bool) (s : State) (r : Reg) (hrd : r ≠ dst)
    (hrs : r ≠ scratch) :
    I64x2ExtMul avx dst src1 src2 scratch low is_signed s r = s r := by
  cases avx <;> cases low <;> simp [I64x2ExtMul, wr, hrd, hrs]

theorem frameSconv8 (avx : Bool) (dst src : Reg) (s : State) (r : Reg)
    (hrd : r ≠ dst) :
    I16x8SConvertI8x16High avx dst src s r = s r := by
  cases avx <;> by_cases hds : dst = src
  · subst hds
    simp [I16x8SConvertI8x16High, wr, hrd]
  · simp [I16x8SConvertI8x16High, wr, hrd, hds]
  · subst hds
    simp [I16x8SConvertI8x16High, wr, hrd]
  · simp [I16x8SConvertI8x16High, wr, hrd, hds]

theorem frameUconv8 (avx : Bool) (dst src scratch : Reg) (s : State) (r : Reg)
    (hrd : r ≠ dst) (hrs : r ≠ scratch) :
    I16x8UConvertI8x16High avx dst src scratch s r = s r := by
  cases avx <;> by_cases hds : dst = src
  · subst hds
    simp [I16x8UConvertI8x16High, wr, hrd, hrs]
  · simp [I16x8UConvertI8x16High, wr, hrd, hrs, hds]
  · subst hds
    simp [I16x8UConvertI8x16High, wr, hrd, hrs]
  · simp [I16x8UConvertI8x16High, wr, hrd, hrs, hds]

theorem frameSconv16 (avx : Bool) (dst src : Reg) (s : State) (r : Reg)
    (hrd : r ≠ dst) :
    I32x4SConvertI16x8High avx dst src s r = s r := by
  cases avx <;> by_cases hds : dst = src
  · subst hds
    simp [I32x4SConvertI16x8High, wr, hrd]
  · simp [I32x4SConvertI16x8High, wr, hrd, hds]
  · subst hds
    simp [I32x4SConvertI16x8High, wr, hrd]
  · simp [I32x4SConvertI16x8High, wr, hrd, hds]

theorem frameUconv16 (avx : Bool) (dst src scratch : Reg) (s : State) (r : Reg)
    (hrd : r ≠ dst) (hrs : r ≠ scratch) :
    I32x4UConvertI16x8High avx dst src scratch s r = s r := by
  cases avx <;> by_cases hds : dst = src
  · subst hds
    simp [I32x4UConvertI16x8High, wr, hrd, hrs]
  · simp [I32x4UConvertI16x8High, wr, hrd, hrs, hds]
  · subst hds
    simp [I32x4UConvertI16x8High, wr, hrd, hrs]
  · simp [I32x4UConvertI16x8High, wr, hrd, hrs, hds]

theorem frameSconv32 (avx : Bool) (dst src : Reg) (s : State) (r : Reg)
    (hrd : r ≠ dst) :
    I64x2SConvertI32x4High avx dst src s r = s r := by
  cases avx <;> by_cases hds : dst = src
  · subst hds
    simp [I64x2SConvertI32x4High, wr, hrd]
  · simp [I64x2SConvertI32x4High, wr, hrd, hds]
  · subst hds
    simp [I64x2SConvertI32x4High, wr, hrd]
  · simp [I64x2SConvertI32x4High, wr, hrd, hds]

theorem frameUconv32 (avx : Bool) (dst src scratch : Reg) (s : State) (r : Reg)
    (hrd : r ≠ dst) (hrs : r ≠ scratch) :
    I64x2UConvertI32x4High avx dst src scratch s r = s r := by
  cases avx <;> by_cases hds : dst = src
  · subst hds
    simp [I64x2UConvertI32x4High, wr, hrd, hrs]
  · simp [I64x2UConvertI32x4High, wr, hrd, hrs, hds]
  · subst hds
    simp [I64x2UConvertI32x4High, wr, hrd, hrs]
  · simp [I64x2UConvertI32x4High, wr, hrd, hrs, hds]

/-! Scratch-independence lemmas: with a fresh scratch register, the value
left in the destination does not depend on the initial scratch contents. -/

theorem scrS (avx : Bool) (dst src1 src2 scratch : Reg) (hsd : scratch ≠ dst)
    (hs1 : scratch ≠ src1) (hs2 : scratch ≠ src2) (s : State) (v : V128) :
    I16x8ExtMulHighS avx dst src1 src2 scratch (wr s scratch v) dst
      = I16x8ExtMulHighS avx dst src1 src2 scratch s dst := by
  cases avx
  · by_cases hd1 : dst = src1
    · subst hd1
      simp [I16x8ExtMulHighS, wr, hsd, hs1, hs2, Ne.symm hsd, Ne.symm hs1,
        Ne.symm hs2]
    · simp [I16x8ExtMulHighS, wr, hsd, hs1, hs2, hd1, Ne.symm hsd,
        Ne.symm hs1, Ne.symm hs2]
  · simp [I16x8ExtMulHighS, wr, hsd, hs1, hs2, Ne.symm hsd, Ne.symm hs1,
      Ne.symm hs2]

theorem scrU (avx : Bool) (dst src1 src2 scratch : Reg) (hsd : scratch ≠ dst)
    (hs1 : scratch ≠ src1) (hs2 : scratch ≠ src2) (s : State) (v : V128) :
    I16x8ExtMulHighU avx dst src1 src2 scratch (wr s scratch v) dst
      = I16x8ExtMulHighU avx dst src1 src2 scratch s dst := by
  cases avx <;> by_cases h12 : src1 = src2
  · subst h12
    by_cases hd1 : dst = src1
    · subst hd1
      simp [I16x8ExtMulHighU, wr, hsd, hs1, Ne.symm hsd, Ne.symm hs1,
        xorps_self, pxor_self]
    · simp [I16x8ExtMulHighU, wr, hsd, hs1, hd1, Ne.symm hsd, Ne.symm hs1,
        xorps_self, pxor_self]
  · by_cases hd2 : dst = src2
    · subst hd2
      simp [I16x8ExtMulHighU, wr, hsd, hs1, hs2, h12, Ne.symm hsd,
        Ne.symm hs1, Ne.symm hs2, xorps_self, pxor_self]
    · by_cases hd1 : dst = src1
      · subst hd1
        simp [I16x8ExtMulHighU, wr, hsd, hs1, hs2, h12, hd2, Ne.symm hsd,
          Ne.symm hs1, Ne.symm hs2, Ne.symm hd2, xorps_self, pxor_self]
      · simp [I16x8ExtMulHighU, wr, hsd, hs1, hs2, h12, hd2, hd1,
          Ne.symm hsd, Ne.symm hs1, Ne.symm hs2, Ne.symm hd2, Ne.symm hd1,
          xorps_self, pxor_self]
  · subst h12
    simp [I16x8ExtMulHighU, wr, hsd, hs1, Ne.symm hsd, Ne.symm hs1,
      xorps_self, pxor_self]
  · by_cases hd2 : dst = src2
    · subst hd2
      simp [I16x8ExtMulHighU, wr, hsd, hs1, hs2, h12, Ne.symm hsd,
        Ne.symm hs1, Ne.symm hs2, xorps_self, pxor_self]
    · simp [I16x8ExtMulHighU, wr, hsd, hs1, hs2, h12, hd2, Ne.symm hsd,
        Ne.symm hs1, Ne.symm hs2, Ne.symm hd2, xorps_self, pxor_self]

theorem scrI32 (avx : Bool) (dst src1 src2 scratch : Reg) (hsd : scratch ≠ dst)
    (hs1 : scratch ≠ src1) (hs2 : scratch ≠ src2) (low is_signed : Bool)
    (s : State) (v : V128) :
    I32x4ExtMul avx dst src1 src2 scratch low is_signed (wr s scratch v) dst
      = I32x4ExtMul avx dst src1 src2 scratch low is_signed s dst := by
  cases avx
  · by_cases hd2 : src2 = dst
    · subst hd2
      simp [I32x4ExtMul, wr, hsd, hs1, hs2, Ne.symm hsd, Ne.symm hs1,
        Ne.symm hs2]
    · simp [I32x4ExtMul, wr, hsd, hs1, hs2, hd2, Ne.symm hsd, Ne.symm hs1,
        Ne.symm hs2]
  · simp [I32x4ExtMul, wr, hsd, hs1, hs2, Ne.symm hsd, Ne.symm hs1,
      Ne.symm hs2]

theorem scrI64 (avx : Bool) (dst src1 src2 scratch : Reg) (hsd : scratch ≠ dst)
    (hs1 : scratch ≠ src1) (hs2 : scratch ≠ src2) (low is_signed : Bool)
    (s : State) (v : V128) :
    I64x2ExtMul avx dst src1 src2 scratch low is_signed (wr s scratch v) dst
      = I64x2ExtMul avx dst src1 src2 scratch low is_signed s dst := by
  cases avx <;> cases low <;>
    simp [I64x2ExtMul, wr, hsd, hs1, hs2, Ne.symm hsd, Ne.symm hs1,
      Ne.symm hs2]

theorem scrUconv8 (avx : Bool) (dst src scratch : Reg) (hsd : scratch ≠ dst)
    (hss : scratch ≠ src) (s : State) (v : V128) :
    I16x8UConvertI8x16High avx dst src scratch (wr s scratch v) dst
      = I16x8UConvertI8x16High avx dst src scratch s dst := by
  cases avx <;> by_cases hds : dst = src
  · subst hds
    simp [I16x8UConvertI8x16High, wr, hsd, hss, Ne.symm hsd, Ne.symm hss,
      xorps_self, pxor_self]
  · simp [I16x8UConvertI8x16High, wr, hsd, hss, hds, Ne.symm hsd,
      Ne.symm hss, Ne.symm hds, xorps_self, pxor_self]
  · subst hds
    simp [I16x8UConvertI8x16High, wr, hsd, hss, Ne.symm hsd, Ne.symm hss,
      xorps_self, pxor_self]
  · simp [I16x8UConvertI8x16High, wr, hsd, hss, hds, Ne.symm hsd,
      Ne.symm hss, Ne.symm hds, xorps_self, pxor_self]

theorem scrUconv16 (avx : Bool) (dst src scratch : Reg) (hsd : scratch ≠ dst)
    (hss : scratch ≠ src) (s : State) (v : V128) :
    I32x4UConvertI16x8High avx dst src scratch (wr s scratch v) dst
      = I32x4UConvertI16x8High avx dst src scratch s dst := by
  cases avx <;> by_cases hds : dst = src
  · subst hds
    simp [I32x4UConvertI16x8High, wr, hsd, hss, Ne.symm hsd, Ne.symm hss,
      xorps_self, pxor_self]
  · simp [I32x4UConvertI16x8High, wr, hsd, hss, hds, Ne.symm hsd,
      Ne.symm hss, Ne.symm hds, xorps_self, pxor_self]
  · subst hds
    simp [I32x4UConvertI16x8High, wr, hsd, hss, Ne.symm hsd, Ne.symm hss,
      xorps_self, pxor_self]
  · simp [I32x4UConvertI16x8High, wr, hsd, hss, hds, Ne.symm hsd,
      Ne.symm hss, Ne.symm hds, xorps_self, pxor_self]

theorem scrUconv32 (avx : Bool) (dst src scratch : Reg) (hsd : scratch ≠ dst)
    (hss : scratch ≠ src) (s : State) (v : V128) :
    I64x2UConvertI32x4High avx dst src scratch (wr s scratch v) dst
      = I64x2UConvertI32x4High avx dst src scratch s dst := by
  cases avx <;> by_cases hds : dst = src
  · subst hds
    simp [I64x2UConvertI32x4High, wr, hsd, hss, Ne.symm hsd, Ne.symm hss,
      xorps_self, pxor_self]
  · simp [I64x2UConvertI32x4High, wr, hsd, hss, hds, Ne.symm hsd,
      Ne.symm hss, Ne.symm hds, xorps_self, pxor_self]
  · subst hds
    simp [I64x2UConvertI32x4High, wr, hsd, hss, Ne.symm hsd, Ne.symm hss,
      xorps_self, pxor_self]
  · simp [I64x2UConvertI32x4High, wr, hsd, hss, hds, Ne.symm hsd,
      Ne.symm hss, Ne.symm hds, xorps_self, pxor_self]

/-! Claim theorems. -/

/-- C1 (counterexample).  The claim fails as stated: in the legacy (non-AVX)
form of `I16x8ExtMulHighS` with destination aliasing source-2 (and not
source-1), the `movaps(dst, src1)` at line 33 overwrites source-2 before it
is read, so the destination does not receive the scalar reference result. -/
theorem C1_counterexample :
    I16x8ExtMulHighS false 2 1 2 3 stAB 2 ≠ extMulHighSRef (stAB 1) (stAB 2) := by
  decide

/-- C1 (amended).  For every aliasing configuration, both feature settings
and a fresh scratch register, each extended-multiply and convert-high
operation leaves in the destination exactly the lane-wise scalar reference
result, except in the three configurations the code does not support:
`I16x8ExtMulHighS`'s legacy form with `dst = src2 ≠ src1`,
`I16x8ExtMulHighU`'s legacy form with `src1 = src2` (the fused path
multiplies by the zeroed scratch), and `I32x4ExtMul`'s legacy form, which
requires `dst = src1` and `src2` distinct from `dst`. -/
theorem C1_alias_feature_correct :
    (∀ (avx : Bool) (dst src1 src2 scratch : Reg) (s : State),
      scratch ≠ dst → scratch ≠ src1 → scratch ≠ src2 →
      (s src1).Wf → (s src2).Wf → (avx = true ∨ dst = src1 ∨ dst ≠ src2) →
      I16x8ExtMulHighS avx dst src1 src2 scratch s dst
        = extMulHighSRef (s src1) (s src2)) ∧
    (∀ (avx : Bool) (dst src1 src2 scratch : Reg) (s : State),
      scratch ≠ dst → scratch ≠ src1 → scratch ≠ src2 →
      (s src1).Wf → (s src2).Wf → (avx = true ∨ src1 ≠ src2) →
      I16x8ExtMulHighU avx dst src1 src2 scratch s dst
        = extMulHighURef (s src1) (s src2)) ∧
    (∀ (avx : Bool) (dst src1 src2 scratch : Reg) (low is_signed : Bool)
      (s : State),
      scratch ≠ dst → scratch ≠ src1 → scratch ≠ src2 →
      (s src1).Wf → (s src2).Wf → (avx = true ∨ (dst = src1 ∧ dst ≠ src2)) →
      I32x4ExtMul avx dst src1 src2 scratch low is_signed s dst
        = extMulI32Ref (s src1) (s src2) low is_signed) ∧
    (∀ (avx : Bool) (dst src1 src2 scratch : Reg) (low is_signed : Bool)
      (s : State),
      scratch ≠ dst → scratch ≠ src1 → scratch ≠ src2 →
      (s src1).Wf → (s src2).Wf →
      I64x2ExtMul avx dst src1 src2 scratch low is_signed s dst
        = extMulI64Ref (s src1) (s src2) low is_signed) ∧
    (∀ (avx : Bool) (dst src : Reg) (s : State), (s src).Wf →
      I16x8SConvertI8x16High avx dst src s dst = sconv8Ref (s src)) ∧
    (∀ (avx : Bool) (dst src scratch : Reg) (s : State),
      scratch ≠ dst → scratch ≠ src → (s src).Wf →
      I16x8UConvertI8x16High avx dst src scratch s dst = uconv8Ref (s src)) ∧
    (∀ (avx : Bool) (dst src : Reg) (s : State), (s src).Wf →
      I32x4SConvertI16x8High avx dst src s dst = sconv16Ref (s src)) ∧
    (∀ (avx : Bool) (dst src scratch : Reg) (s : State),
      scratch ≠ dst → scratch ≠ src → (s src).Wf →
      I32x4UConvertI16x8High avx dst src scratch s dst = uconv16Ref (s src)) ∧
    (∀ (avx : Bool) (dst src : Reg) (s : State),
      I64x2SConvertI32x4High avx dst src s dst = sconv32Ref (s src)) ∧
    (∀ (avx : Bool) (dst src scratch : Reg) (s : State),
      scratch ≠ dst → scratch ≠ src → (s src).Wf →
      I64x2UConvertI32x4High avx dst src scratch s dst = uconv32Ref (s src)) := by
  refine ⟨?_, ?_, ?_, ?_, ?_, ?_, ?_, ?_, ?_, ?_⟩
  · intro avx dst src1 src2 scratch s hsd hs1 hs2 hw1 hw2 good
    cases avx
    · exact corrS_sse dst src1 src2 scratch hsd hs1 hs2 s hw1 hw2
        (good.resolve_left (by simp))
    · exact corrS_avx dst src1 src2 scratch hsd hs1 hs2 s hw1 hw2
  · intro avx dst src1 src2 scratch s hsd hs1 hs2 hw1 hw2 good
    cases avx
    · exact corrU_sse dst src1 src2 scratch hsd hs1 hs2 s hw1 hw2
        (good.resolve_left (by simp))
    · exact corrU_avx dst src1 src2 scratch hsd hs1 hs2 s hw1 hw2
  · intro avx dst src1 src2 scratch low is_signed s hsd hs1 hs2 hw1 hw2 good
    cases avx
    · obtain ⟨hd1, hd2⟩ := good.resolve_left (by simp)
      subst hd1
      exact corrI32_sse dst src2 scratch hsd hs2 hd2 low is_signed s hw1 hw2
    · exact corrI32_avx dst src1 src2 scratch hsd hs1 hs2 low is_signed s hw1 hw2
  · intro avx dst src1 src2 scratch low is_signed s hsd hs1 hs2 hw1 hw2
    cases avx
    · exact corrI64_sse dst src1 src2 scratch hsd hs1 hs2 low is_signed s hw1 hw2
    · exact corrI64_avx dst src1 src2 scratch hsd hs1 hs2 low is_signed s hw1 hw2
  · intro avx dst src s hw
    exact corrSconv8 avx dst src s hw
  · intro avx dst src scratch s hsd hss hw
    exact corrUconv8 avx dst src scratch hsd hss s hw
  · intro avx dst src s hw
    exact corrSconv16 avx dst src s hw
  · intro avx dst src scratch s hsd hss hw
    exact corrUconv16 avx dst src scratch hsd hss s hw
  · intro avx dst src s
    exact corrSconv32 avx dst src s
  · intro avx dst src scratch s hsd hss hw
    exact corrUconv32 avx dst src scratch hsd hss s hw

/-- C1 (witness): the signed narrow high-multiply at a concrete non-aliased
AVX instance. -/
theorem C1_witness :
    (3 : Reg) ≠ 0 ∧ (3 : Reg) ≠ 1 ∧ (3 : Reg) ≠ 2 ∧ (stAB 1).Wf ∧ (stAB 2).Wf ∧
    I16x8ExtMulHighS true 0 1 2 3 stAB 0 = extMulHighSRef (stAB 1) (stAB 2) :=
  ⟨by decide, by decide, by decide, by decide, by decide,
    C1_alias_feature_correct.1 true 0 1 2 3 stAB (by decide) (by decide)
      (by decide) (by decide) (by decide) (Or.inl rfl)⟩

/-- C2 (code bug).  With the same register for destination and both sources
(a state satisfying every legacy-form precondition, destination pre-equal to
the source) the legacy form of `I16x8ExtMulHighU` leaves the all-zero vector
in the destination — its fused self-multiply path executes
`pmullw(dst, scratch)` against the just-zeroed scratch (line 72) instead of
squaring — while the AVX form leaves the reference squares, so the feature
query changes the observable result. -/
theorem C2_feature_divergence :
    I16x8ExtMulHighU false 0 0 0 1 stA0 0 = zeroV ∧
    I16x8ExtMulHighU true 0 0 0 1 stA0 0 = extMulHighURef (stA0 0) (stA0 0) ∧
    I16x8ExtMulHighU false 0 0 0 1 stA0 0
      ≠ I16x8ExtMulHighU true 0 0 0 1 stA0 0 := by
  refine ⟨by decide, by decide, by decide⟩

/-- C3 (code bug).  The fused self-multiply path of the legacy form of
`I16x8ExtMulHighU` (same handle passed for both sources) leaves the all-zero
vector, whereas the general two-source path on two distinct handles holding
the equal values leaves the reference squares: `pmullw(dst, scratch)` at
line 72 multiplies by the zeroed scratch instead of `pmullw(dst, dst)`. -/
theorem C3_fused_vs_general :
    stDup 1 = stDup 2 ∧
    I16x8ExtMulHighU false 0 1 2 3 stDup 0 = extMulHighURef (stDup 1) (stDup 2) ∧
    I16x8ExtMulHighU false 0 1 1 3 stDup 0 = zeroV ∧
    I16x8ExtMulHighU false 0 1 1 3 stDup 0 ≠ I16x8ExtMulHighU false 0 1 2 3 stDup 0 := by
  refine ⟨by decide, by decide, by decide, by decide⟩

/-- C4 (confirmed).  With the byte vector `[1..16]` as both sources of the
signed narrow high-multiply under AVX, the destination receives the eight
16-bit lanes `[81, 100, 121, 144, 169, 196, 225, 256]`, the squares of the
sign-extended high bytes `[9..16]`. -/
theorem C4_concrete_signed_square :
    stAB 1 = vSeq ∧
    I16x8ExtMulHighS true 0 1 1 2 stAB 0
      = V128.ofWords 81 100 121 144 169 196 225 256 := by
  refine ⟨by decide, by decide⟩

/-- C5 (counterexample).  The assertion hypothesis alone does not imply
legacy-path correctness: with `dst = src1 = src2` the `DCHECK_EQ(dst, src1)`
passes, yet `pmullw(dst, src2)` overwrites `src2` before
`pmulhw(scratch, src2)` reads it, so the destination misses the reference
result. -/
theorem C5_counterexample :
    I32x4ExtMulAssertOk false 0 0 = true ∧
    I32x4ExtMul false 0 0 0 1 true true stW 0
      ≠ extMulI32Ref (stW 0) (stW 0) true true := by
  refine ⟨by decide, by decide⟩

/-- C5 (amended).  The non-AVX branch of `I32x4ExtMul` guards
`dst = src1` with a development-time assertion (and the AVX branch asserts
nothing); the precondition is a hypothesis of correctness, not repaired by a
copy, and under that hypothesis — together with `src2` distinct from the
destination, which the assertion does not check — the legacy path computes
the lane-wise reference result. -/
theorem C5_assert_and_correct :
    (∀ dst src1 : Reg, I32x4ExtMulAssertOk false dst src1 = true ↔ dst = src1) ∧
    (∀ dst src1 : Reg, I32x4ExtMulAssertOk true dst src1 = true) ∧
    (∀ (dst src2 scratch : Reg) (low is_signed : Bool) (s : State),
      scratch ≠ dst → scratch ≠ src2 → dst ≠ src2 →
      (s dst).Wf → (s src2).Wf →
      I32x4ExtMul false dst dst src2 scratch low is_signed s dst
        = extMulI32Ref (s dst) (s src2) low is_signed) := by
  refine ⟨?_, ?_, ?_⟩
  · intro dst src1
    simp [I32x4ExtMulAssertOk]
  · intro dst src1
    simp [I32x4ExtMulAssertOk]
  · intro dst src2 scratch low is_signed s hsd hs2 hd2 hw1 hw2
    exact corrI32_sse dst src2 scratch hsd hs2 hd2 low is_signed s hw1 hw2

/-- C5 (witness): the legacy 32-bit extended multiply at a concrete
precondition-satisfying instance. -/
theorem C5_witness :
    (3 : Reg) ≠ 1 ∧ (3 : Reg) ≠ 2 ∧ (1 : Reg) ≠ 2 ∧ (stAB 1).Wf ∧ (stAB 2).Wf ∧
    I32x4ExtMul false 1 1 2 3 true true stAB 1
      = extMulI32Ref (stAB 1) (stAB 2) true true :=
  ⟨by decide, by decide, by decide, by decide, by decide,
    C5_assert_and_correct.2.2 1 2 3 true true stAB (by decide) (by decide)
      (by decide) (by decide) (by decide)⟩

/-- C6 (counterexample).  Exchanging the two source arguments of the legacy
signed narrow high-multiply changes the destination value when the
destination aliases source-2: the original call squares source-1 (the
aliasing hole of line 33), while the swapped call lands in the supported
`dst = src1` shape and computes the true product. -/
theorem C6_counterexample :
    I16x8ExtMulHighS false 2 1 2 3 stAB 2 ≠ I16x8ExtMulHighS false 2 2 1 3 stAB 2 := by
  decide

/-- C6 (amended).  Exchanging source-1 and source-2 — register contents held
fixed — leaves the destination value unchanged: for `I16x8ExtMulHighU` and
`I64x2ExtMul` in every aliasing configuration and both feature settings; for
`I16x8ExtMulHighS` and `I32x4ExtMul` in the AVX form for every aliasing
configuration, and in `I16x8ExtMulHighS`'s legacy form when the destination
is distinct from both sources.  In the remaining legacy configurations one of
the two calls is outside the code's supported shapes, and swap invariance
fails there. -/
theorem C6_swap_invariance :
    (∀ (avx : Bool) (dst src1 src2 scratch : Reg) (s : State),
      scratch ≠ dst → scratch ≠ src1 → scratch ≠ src2 →
      (s src1).Wf → (s src2).Wf →
      I16x8ExtMulHighU avx dst src1 src2 scratch s dst
        = I16x8ExtMulHighU avx dst src2 src1 scratch s dst) ∧
    (∀ (avx : Bool) (dst src1 src2 scratch : Reg) (low is_signed : Bool)
      (s : State),
      scratch ≠ dst → scratch ≠ src1 → scratch ≠ src2 →
      (s src1).Wf → (s src2).Wf →
      I64x2ExtMul avx dst src1 src2 scratch low is_signed s dst
        = I64x2ExtMul avx dst src2 src1 scratch low is_signed s dst) ∧
    (∀ (dst src1 src2 scratch : Reg) (s : State),
      scratch ≠ dst → scratch ≠ src1 → scratch ≠ src2 →
      (s src1).Wf → (s src2).Wf →
      I16x8ExtMulHighS true dst src1 src2 scratch s dst
        = I16x8ExtMulHighS true dst src2 src1 scratch s dst) ∧
    (∀ (dst src1 src2 scratch : Reg) (s : State),
      scratch ≠ dst → scratch ≠ src1 → scratch ≠ src2 →
      dst ≠ src1 → dst ≠ src2 → (s src1).Wf → (s src2).Wf →
      I16x8ExtMulHighS false dst src1 src2 scratch s dst
        = I16x8ExtMulHighS false dst src2 src1 scratch s dst) ∧
    (∀ (dst src1 src2 scratch : Reg) (low is_signed : Bool) (s : State),
      scratch ≠ dst → scratch ≠ src1 → scratch ≠ src2 →
      (s src1).Wf → (s src2).Wf →
      I32x4ExtMul true dst src1 src2 scratch low is_signed s dst
        = I32x4ExtMul true dst src2 src1 scratch low is_signed s dst) := by
  refine ⟨?_, ?_, ?_, ?_, ?_⟩
  · intro avx dst src1 src2 scratch s hsd hs1 hs2 hw1 hw2
    by_cases h12 : src1 = src2
    · subst h12
      rfl
    · cases avx
      · rw [corrU_sse dst src1 src2 scratch hsd hs1 hs2 s hw1 hw2 h12,
          corrU_sse dst src2 src1 scratch hsd hs2 hs1 s hw2 hw1 (Ne.symm h12),
          extMulHighURef_comm]
      · rw [corrU_avx dst src1 src2 scratch hsd hs1 hs2 s hw1 hw2,
          corrU_avx dst src2 src1 scratch hsd hs2 hs1 s hw2 hw1,
          extMulHighURef_comm]
  · intro avx dst src1 src2 scratch low is_signed s hsd hs1 hs2 hw1 hw2
    cases avx
    · rw [corrI64_sse dst src1 src2 scratch hsd hs1 hs2 low is_signed s hw1 hw2,
        corrI64_sse dst src2 src1 scratch hsd hs2 hs1 low is_signed s hw2 hw1,
        extMulI64Ref_comm]
    · rw [corrI64_avx dst src1 src2 scratch hsd hs1 hs2 low is_signed s hw1 hw2,
        corrI64_avx dst src2 src1 scratch hsd hs2 hs1 low is_signed s hw2 hw1,
        extMulI64Ref_comm]
  · intro dst src1 src2 scratch s hsd hs1 hs2 hw1 hw2
    rw [corrS_avx dst src1 src2 scratch hsd hs1 hs2 s hw1 hw2,
      corrS_avx dst src2 src1 scratch hsd hs2 hs1 s hw2 hw1,
      extMulHighSRef_comm]
  · intro dst src1 src2 scratch s hsd hs1 hs2 hd1 hd2 hw1 hw2
    rw [corrS_sse dst src1 src2 scratch hsd hs1 hs2 s hw1 hw2 (Or.inr hd2),
      corrS_sse dst src2 src1 scratch hsd hs2 hs1 s hw2 hw1 (Or.inr hd1),
      extMulHighSRef_comm]
  · intro dst src1 src2 scratch low is_signed s hsd hs1 hs2 hw1 hw2
    rw [corrI32_avx dst src1 src2 scratch hsd hs1 hs2 low is_signed s hw1 hw2,
      corrI32_avx dst src2 src1 scratch hsd hs2 hs1 low is_signed s hw2 hw1,
      extMulI32Ref_comm]

/-- C6 (witness): swap invariance of the unsigned narrow high-multiply at a
concrete legacy instance. -/
theorem C6_witness :
    (3 : Reg) ≠ 0 ∧ (3 : Reg) ≠ 1 ∧ (3 : Reg) ≠ 2 ∧ (stAB 1).Wf ∧ (stAB 2).Wf ∧
    I16x8ExtMulHighU false 0 1 2 3 stAB 0 = I16x8ExtMulHighU false 0 2 1 3 stAB 0 :=
  ⟨by decide, by decide, by decide, by decide, by decide,
    C6_swap_invariance.1 false 0 1 2 3 stAB (by decide) (by decide) (by decide)
      (by decide) (by decide)⟩

/-- C7 (counterexample).  The legacy form of `I32x4ExtMul` does not proceed
by the claimed steps: at a concrete precondition-satisfying instance the
scratch register ends up holding the high-word products (the claimed steps
put the low-word products there), so the two state transformations differ. -/
theorem C7_counterexample :
    I32x4ExtMul false 1 1 2 3 true true stAB
      ≠ I32x4ExtMulSteps 1 1 2 3 true true stAB := by
  intro h
  exact absurd (congrFun h 3) (by decide)

/-- C7 (amended).  The AVX form of `I32x4ExtMul` is exactly the claimed step
structure — low-word multiply into scratch, high-word multiply (signed or
unsigned per the flag) into the destination, then low- or high-interleave of
scratch and destination into the destination — as a full state
transformation.  The legacy form computes the low products in the
destination and the high products in scratch (the roles are swapped), yet
under its preconditions it leaves in the destination the same value as the
claimed steps. -/
theorem C7_steps :
    (∀ (dst src1 src2 scratch : Reg) (low is_signed : Bool) (s : State),
      I32x4ExtMul true dst src1 src2 scratch low is_signed s
        = I32x4ExtMulSteps dst src1 src2 scratch low is_signed s) ∧
    (∀ (dst src2 scratch : Reg) (low is_signed : Bool) (s : State),
      scratch ≠ dst → scratch ≠ src2 → dst ≠ src2 →
      I32x4ExtMul false dst dst src2 scratch low is_signed s dst
        = I32x4ExtMulSteps dst dst src2 scratch low is_signed s dst) := by
  refine ⟨?_, ?_⟩
  · intro dst src1 src2 scratch low is_signed s
    exact I32_avx_steps dst src1 src2 scratch low is_signed s
  · intro dst src2 scratch low is_signed s hsd hs2 hd2
    exact I32_sse_steps_dst dst src2 scratch hsd hs2 hd2 low is_signed s

/-- C7 (witness): destination agreement of the legacy form with the claimed
steps at a concrete instance. -/
theorem C7_witness :
    (3 : Reg) ≠ 1 ∧ (3 : Reg) ≠ 2 ∧ (1 : Reg) ≠ 2 ∧
    I32x4ExtMul false 1 1 2 3 true true stAB 1
      = I32x4ExtMulSteps 1 1 2 3 true true stAB 1 :=
  ⟨by decide, by decide, by decide,
    C7_steps.2 1 2 3 true true stAB (by decide) (by decide) (by decide)⟩

/-- C8 (confirmed).  `I64x2ExtMul` equals, as a full state transformation,
the specified structure — duplicate the low (or, per the `low` flag, high)
pair of 32-bit sub-lanes of each source by one of two fixed shuffle patterns
into scratch and destination, then signed or unsigned widening-multiply
scratch against destination — in both feature settings and under every
aliasing configuration with a fresh scratch, and the destination receives
the lane-wise reference result without any extra copy or swap. -/
theorem C8_dup_structure :
    ∀ (avx : Bool) (dst src1 src2 scratch : Reg) (low is_signed : Bool)
      (s : State),
      scratch ≠ dst → scratch ≠ src1 → scratch ≠ src2 →
      (s src1).Wf → (s src2).Wf →
      I64x2ExtMul avx dst src1 src2 scratch low is_signed s
          = I64x2ExtMulSteps dst src1 src2 scratch low is_signed s ∧
        I64x2ExtMul avx dst src1 src2 scratch low is_signed s dst
          = extMulI64Ref (s src1) (s src2) low is_signed := by
  intro avx dst src1 src2 scratch low is_signed s hsd hs1 hs2 hw1 hw2
  refine ⟨I64_steps_eq avx dst src1 src2 scratch hsd hs1 hs2 low is_signed s
    hw1 hw2, ?_⟩
  cases avx
  · exact corrI64_sse dst src1 src2 scratch hsd hs1 hs2 low is_signed s hw1 hw2
  · exact corrI64_avx dst src1 src2 scratch hsd hs1 hs2 low is_signed s hw1 hw2

/-- C8 (witness): the 64-bit extended multiply at a concrete aliased legacy
instance (destination aliases source-2). -/
theorem C8_witness :
    (3 : Reg) ≠ 2 ∧ (3 : Reg) ≠ 1 ∧ (stAB 1).Wf ∧ (stAB 2).Wf ∧
    (I64x2ExtMul false 2 1 2 3 false true stAB
        = I64x2ExtMulSteps 2 1 2 3 false true stAB ∧
      I64x2ExtMul false 2 1 2 3 false true stAB 2
        = extMulI64Ref (stAB 1) (stAB 2) false true) :=
  ⟨by decide, by decide, by decide, by decide,
    C8_dup_structure false 2 1 2 3 false true stAB (by decide) (by decide)
      (by decide) (by decide) (by decide)⟩

/-- C9 (confirmed).  For every operation that takes a scratch register, with
the scratch handle distinct from the destination and from every source
handle, the final destination value is unchanged when the initial scratch
contents are replaced by an arbitrary value: the scratch register is always
written before it is read. -/
theorem C9_scratch_independence :
    (∀ (avx : Bool) (dst src1 src2 scratch : Reg) (s : State) (v : V128),
      scratch ≠ dst → scratch ≠ src1 → scratch ≠ src2 →
      I16x8ExtMulHighS avx dst src1 src2 scratch (wr s scratch v) dst
        = I16x8ExtMulHighS avx dst src1 src2 scratch s dst) ∧
    (∀ (avx : Bool) (dst src1 src2 scratch : Reg) (s : State) (v : V128),
      scratch ≠ dst → scratch ≠ src1 → scratch ≠ src2 →
      I16x8ExtMulHighU avx dst src1 src2 scratch (wr s scratch v) dst
        = I16x8ExtMulHighU avx dst src1 src2 scratch s dst) ∧
    (∀ (avx : Bool) (dst src1 src2 scratch : Reg) (low is_signed : Bool)
      (s : State) (v : V128),
      scratch ≠ dst → scratch ≠ src1 → scratch ≠ src2 →
      I32x4ExtMul avx dst src1 src2 scratch low is_signed (wr s scratch v) dst
        = I32x4ExtMul avx dst src1 src2 scratch low is_signed s dst) ∧
    (∀ (avx : Bool) (dst src1 src2 scratch : Reg) (low is_signed : Bool)
      (s : State) (v : V128),
      scratch ≠ dst → scratch ≠ src1 → scratch ≠ src2 →
      I64x2ExtMul avx dst src1 src2 scratch low is_signed (wr s scratch v) dst
        = I64x2ExtMul avx dst src1 src2 scratch low is_signed s dst) ∧
    (∀ (avx : Bool) (dst src scratch : Reg) (s : State) (v : V128),
      scratch ≠ dst → scratch ≠ src →
      I16x8UConvertI8x16High avx dst src scratch (wr s scratch v) dst
        = I16x8UConvertI8x16High avx dst src scratch s dst) ∧
    (∀ (avx : Bool) (dst src scratch : Reg) (s : State) (v : V128),
      scratch ≠ dst → scratch ≠ src →
      I32x4UConvertI16x8High avx dst src scratch (wr s scratch v) dst
        = I32x4UConvertI16x8High avx dst src scratch s dst) ∧
    (∀ (avx : Bool) (dst src scratch : Reg) (s : State) (v : V128),
      scratch ≠ dst → scratch ≠ src →
      I64x2UConvertI32x4High avx dst src scratch (wr s scratch v) dst
        = I64x2UConvertI32x4High avx dst src scratch s dst) := by
  refine ⟨?_, ?_, ?_, ?_, ?_, ?_, ?_⟩
  · intro avx dst src1 src2 scratch s v hsd hs1 hs2
    exact scrS avx dst src1 src2 scratch hsd hs1 hs2 s v
  · intro avx dst src1 src2 scratch s v hsd hs1 hs2
    exact scrU avx dst src1 src2 scratch hsd hs1 hs2 s v
  · intro avx dst src1 src2 scratch low is_signed s v hsd hs1 hs2
    exact scrI32 avx dst src1 src2 scratch hsd hs1 hs2 low is_signed s v
  · intro avx dst src1 src2 scratch low is_signed s v hsd hs1 hs2
    exact scrI64 avx dst src1 src2 scratch hsd hs1 hs2 low is_signed s v
  · intro avx dst src scratch s v hsd hss
    exact scrUconv8 avx dst src scratch hsd hss s v
  · intro avx dst src scratch s v hsd hss
    exact scrUconv16 avx dst src scratch hsd hss s v
  · intro avx dst src scratch s v hsd hss
    exact scrUconv32 avx dst src scratch hsd hss s v

/-- C9 (witness): scratch-independence of the signed narrow high-multiply at
a concrete legacy instance with perturbed scratch contents. -/
theorem C9_witness :
    (3 : Reg) ≠ 0 ∧ (3 : Reg) ≠ 1 ∧ (3 : Reg) ≠ 2 ∧
    I16x8ExtMulHighS false 0 1 2 3 (wr stAB 3 vW256) 0
      = I16x8ExtMulHighS false 0 1 2 3 stAB 0 :=
  ⟨by decide, by decide, by decide,
    C9_scratch_independence.1 false 0 1 2 3 stAB vW256 (by decide) (by decide)
      (by decide)⟩

/-- C10 (confirmed).  Every operation of the emitter writes only the
destination and scratch registers: after the emitted sequence, any register
distinct from both holds exactly its previous value (operations without a
scratch operand write only the destination). -/
theorem C10_frame :
    (∀ (avx : Bool) (dst src1 src2 scratch : Reg) (s : State) (r : Reg),
      r ≠ dst → r ≠ scratch →
      I16x8ExtMulHighS avx dst src1 src2 scratch s r = s r) ∧
    (∀ (avx : Bool) (dst src1 src2 scratch : Reg) (s : State) (r : Reg),
      r ≠ dst → r ≠ scratch →
      I16x8ExtMulHighU avx dst src1 src2 scratch s r = s r) ∧
    (∀ (avx : Bool) (dst src1 src2 scratch : Reg) (low is_signed : Bool)
      (s : State) (r : Reg), r ≠ dst → r ≠ scratch →
      I32x4ExtMul avx dst src1 src2 scratch low is_signed s r = s r) ∧
    (∀ (avx : Bool) (dst src1 src2 scratch : Reg) (low is_signed : Bool)
      (s : State) (r : Reg), r ≠ dst → r ≠ scratch →
      I64x2ExtMul avx dst src1 src2 scratch low is_signed s r = s r) ∧
    (∀ (avx : Bool) (dst src : Reg) (s : State) (r : Reg), r ≠ dst →
      I16x8SConvertI8x16High avx dst src s r = s r) ∧
    (∀ (avx : Bool) (dst src scratch : Reg) (s : State) (r : Reg),
      r ≠ dst → r ≠ scratch →
      I16x8UConvertI8x16High avx dst src scratch s r = s r) ∧
    (∀ (avx : Bool) (dst src : Reg) (s : State) (r : Reg), r ≠ dst →
      I32x4SConvertI16x8High avx dst src s r = s r) ∧
    (∀ (avx : Bool) (dst src scratch : Reg) (s : State) (r : Reg),
      r ≠ dst → r ≠ scratch →
      I32x4UConvertI16x8High avx dst src scratch s r = s r) ∧
    (∀ (avx : Bool) (dst src : Reg) (s : State) (r : Reg), r ≠ dst →
      I64x2SConvertI32x4High avx dst src s r = s r) ∧
    (∀ (avx : Bool) (dst src scratch : Reg) (s : State) (r : Reg),
      r ≠ dst → r ≠ scratch →
      I64x2UConvertI32x4High avx dst src scratch s r = s r) := by
  refine ⟨?_, ?_, ?_, ?_, ?_, ?_, ?_, ?_, ?_, ?_⟩
  · intro avx dst src1 src2 scratch s r hrd hrs
    exact frameS avx dst src1 src2 scratch s r hrd hrs
  · intro avx dst src1 src2 scratch s r hrd hrs
    exact frameU avx dst src1 src2 scratch s r hrd hrs
  · intro avx dst src1 src2 scratch low is_signed s r hrd hrs
    exact frameI32 avx dst src1 src2 scratch low is_signed s r hrd hrs
  · intro avx dst src1 src2 scratch low is_signed s r hrd hrs
    exact frameI64 avx dst src1 src2 scratch low is_signed s r hrd hrs
  · intro avx dst src s r hrd
    exact frameSconv8 avx dst src s r hrd
  · intro avx dst src scratch s r hrd hrs
    exact frameUconv8 avx dst src scratch s r hrd hrs
  · intro avx dst src s r hrd
    exact frameSconv16 avx dst src s r hrd
  · intro avx dst src scratch s r hrd hrs
    exact frameUconv16 avx dst src scratch s r hrd hrs
  · intro avx dst src s r hrd
    exact frameSconv32 avx dst src s r hrd
  · intro avx dst src scratch s r hrd hrs
    exact frameUconv32 avx dst src scratch s r hrd hrs

/-- C10 (witness): the source register of a non-aliased legacy signed
narrow high-multiply keeps its value. -/
theorem C10_witness :
    (1 : Reg) ≠ 0 ∧ (1 : Reg) ≠ 3 ∧
    I16x8ExtMulHighS false 0 1 2 3 stAB 1 = stAB 1 :=
  ⟨by decide, by decide,
    C10_frame.1 false 0 1 2 3 stAB 1 (by decide) (by decide)⟩
